import Mathlib

/-!
Verification of the recording-orchestration core of the Sideo screen-recording
application, shallowly embedded in Lean 4.

Source files embedded here:
* `src/main/core/AppStateManager.ts` (AppStateManager, SafetyManager)
* `src/main/config/ConfigManager.ts` (session/profile stores)
* `src/main/recording/RecordingEngine.ts`
* `src/main/recording/QualityProfileManager.ts`
* `src/main/devices/EncoderCapabilityDetector.ts`
* `src/main/devices/DeviceFallbackManager.ts`

Modelling conventions:
* JavaScript numbers that carry fractional values (disk bytes, percentages,
  CPU/memory readings) are embedded as `ℚ`; test durations and byte counts
  used only integrally are `ℕ`.
* `Date.now()` is modelled by a strictly monotone `clock : ℕ` carried in the
  state; each operation that reads the wall clock consumes the current value
  and advances it.  Session identifiers derived from `Date.now()` are the
  consumed clock value, hence fresh.
* Fallible subcomputations (the mocked disk/system probes, the external
  FFmpeg process calls, audio-device validation) are passed in as explicit
  outcome parameters, covering both their success values and their
  throw/catch paths.
* `Array.prototype.sort` with a comparator is modelled by `List.mergeSort`
  with `fun a b => compare a b ≤ 0`; both produce a stable permutation that
  is pairwise-sorted with respect to the comparator.
-/

namespace Sideo

/-! ## Data model (`src/main/types.ts`) -/

/-- `RecordingSession.status : 'recording' | 'stopped' | 'error'`. -/
inductive SessionStatus
  | recording
  | stopped
  | error
deriving DecidableEq, Repr

/-- `RecordingSession` from `src/main/types.ts`.  The string identifier
generated from `Date.now()` is modelled as the numeric clock value `sid`. -/
structure RecordingSession where
  sid : Nat
  startTime : Nat
  endTime : Option Nat
  profile : String
  outputPath : String
  status : SessionStatus
  fileSizeBytes : Option Nat
  durationSeconds : Option Nat
  errorMessage : Option String
deriving DecidableEq, Repr

/-- Audio device direction (`'input' | 'output'`). -/
inductive DeviceType
  | input
  | output
deriving DecidableEq, Repr

/-- `AudioDevice` from `src/main/types.ts`. -/
structure AudioDevice where
  id : String
  name : String
  type : DeviceType
  is_default : Bool
  is_available : Bool
deriving DecidableEq, Repr

/-- Encoder vendor tag (`'nvidia' | 'intel' | 'amd' | 'software'`). -/
inductive Vendor
  | nvidia
  | intel
  | amd
  | software
deriving DecidableEq, Repr

/-- `VideoEncoder` from `src/main/ffmpeg/FFmpegCommandBuilder.ts` (shape taken
from its construction sites: `DeviceFallbackManager.createDummyEncoder` and
the unit tests). -/
structure VideoEncoder where
  name : String
  displayName : String
  isHardware : Bool
  vendor : Vendor
  testCommand : List String
  isAvailable : Option Bool := none
deriving DecidableEq, Repr

/-- `VideoProfileConfig` from `src/main/types.ts`. -/
structure VideoProfileConfig where
  resolution : String
  fps : Nat
  bitrate_kbps : Nat
  encoder_priority : List String
deriving DecidableEq, Repr

/-- `AudioProfileConfig` from `src/main/types.ts`. -/
structure AudioProfileConfig where
  bitrate_kbps : Nat
  codec : String
deriving DecidableEq, Repr

/-- `QualityProfile` from `src/main/types.ts`. -/
structure QualityProfile where
  id : String
  name : String
  subtitle : String
  video : VideoProfileConfig
  audio : AudioProfileConfig
  description : String
deriving DecidableEq, Repr

/-! ## Safety monitor (`SafetyManager` in `src/main/core/AppStateManager.ts`) -/

/-- `SafetyStatus['diskSpace']`. -/
structure DiskSpaceStatus where
  free : ℚ
  total : ℚ
  percentage : ℚ
  isLow : Bool
  isCritical : Bool
deriving DecidableEq, Repr

/-- `SafetyStatus['duration']`. -/
structure DurationStatus where
  current : ℚ
  maximum : ℚ
  percentage : ℚ
  isNearLimit : Bool
  isAtLimit : Bool
deriving DecidableEq, Repr

/-- `SafetyStatus['system']`. -/
structure SystemStatus where
  memoryUsage : ℚ
  cpuUsage : ℚ
  isUnderStress : Bool
deriving DecidableEq, Repr

/-- `SafetyStatus`. -/
structure SafetyStatus where
  diskSpace : DiskSpaceStatus
  duration : DurationStatus
  system : SystemStatus
deriving DecidableEq, Repr

/-- JavaScript `Math.round` (round half up) on a rational. -/
def jsRound (q : ℚ) : ℤ := ⌊q + 1 / 2⌋

/-- `SafetyManager.getDiskSpace`.  The body's free/total-space computation
(mocked constants in the source) is the fallible probe, passed in as
`probe = some (free, total)`; `probe = none` is the `catch` branch. -/
def getDiskSpace (min_free_space_mb : ℚ) (probe : Option (ℚ × ℚ)) :
    DiskSpaceStatus :=
  match probe with
  | some (free, total) =>
    let freeMB := free / 1024 / 1024
    { free := free
      total := total
      percentage := free / total * 100
      isLow := decide (freeMB < min_free_space_mb * 2)
      isCritical := decide (freeMB < min_free_space_mb) }
  | none =>
    { free := 0, total := 0, percentage := 0, isLow := true, isCritical := true }

/-- `SafetyManager.getSystemStatus`.  The memory/CPU probe (mocked random
values in the source) is passed in as `probe = some (memory, cpu)`;
`probe = none` is the `catch` branch. -/
def getSystemStatus (probe : Option (ℚ × ℚ)) : SystemStatus :=
  match probe with
  | some (mem, cpu) =>
    { memoryUsage := mem
      cpuUsage := cpu
      isUnderStress := decide (mem > 85) || decide (cpu > 90) }
  | none =>
    { memoryUsage := 0, cpuUsage := 0, isUnderStress := false }

/-- `SafetyManager.getDurationStatus`.  `recordingDurationSeconds` is the
value of `appStateManager.getRecordingDuration()`. -/
def getDurationStatus (recordingDurationSeconds : ℚ)
    (max_duration_minutes : ℚ) : DurationStatus :=
  let currentDuration := recordingDurationSeconds / 60
  let maxDuration := max_duration_minutes
  let percentage := if maxDuration > 0 then currentDuration / maxDuration * 100 else 0
  { current := currentDuration
    maximum := maxDuration
    percentage := percentage
    isNearLimit := decide (percentage > 80) && decide (maxDuration > 0)
    isAtLimit := decide (percentage ≥ 100) && decide (maxDuration > 0) }

/-- `SafetyManager.getSafetyStatus`, with the three probes made explicit. -/
def getSafetyStatus (min_free_space_mb max_duration_minutes : ℚ)
    (diskProbe : Option (ℚ × ℚ)) (recordingDurationSeconds : ℚ)
    (systemProbe : Option (ℚ × ℚ)) : SafetyStatus :=
  { diskSpace := getDiskSpace min_free_space_mb diskProbe
    duration := getDurationStatus recordingDurationSeconds max_duration_minutes
    system := getSystemStatus systemProbe }

/-- `SafetyManager.canStartRecording`: the decision and optional reason. -/
def canStartRecording (status : SafetyStatus) : Bool × Option String :=
  if status.diskSpace.isCritical then
    (false, some ("Critical disk space: Only " ++
      toString (jsRound (status.diskSpace.free / 1024 / 1024)) ++ " MB remaining"))
  else if status.system.isUnderStress then
    (false, some "System is under high resource stress")
  else if status.diskSpace.isLow then
    (true, some ("Warning: Low disk space (" ++
      toString (jsRound (status.diskSpace.free / 1024 / 1024)) ++ " MB remaining)"))
  else
    (true, none)

/-- Result of one `SafetyManager.checkRecordingDuration` tick:
whether `emergencyStop` was invoked (and `MAX_DURATION_REACHED` emitted) and
whether `MAX_DURATION_WARNING` was emitted. -/
structure DurationCheck where
  stopTriggered : Bool
  warned : Bool
deriving DecidableEq, Repr

/-- `SafetyManager.checkRecordingDuration` (the `emergencyStop` call inside
is itself guarded by the same `isRecording` flag). -/
def checkRecordingDuration (isRecording : Bool) (duration : DurationStatus) :
    DurationCheck :=
  if duration.isAtLimit && isRecording then
    { stopTriggered := true, warned := false }
  else if duration.isNearLimit then
    { stopTriggered := false, warned := true }
  else
    { stopTriggered := false, warned := false }

/-! ## Encoder capability detector
(`src/main/devices/EncoderCapabilityDetector.ts`) -/

/-- Capability summary parsed for a tested encoder. -/
structure EncoderCapabilities where
  maxResolution : String
  supportedProfiles : List String
  supportedPresets : List String
deriving DecidableEq, Repr

/-- `EncoderTestResult`. -/
structure EncoderTestResult where
  encoder : VideoEncoder
  isAvailable : Bool
  testDuration : Nat
  performanceScore : Option Nat := none
  error : Option String := none
  capabilities : Option EncoderCapabilities := none
deriving DecidableEq, Repr

/-- `EncoderCapabilityDetector.calculatePerformanceScore`. -/
def calculatePerformanceScore (encoder : VideoEncoder) (testDuration : Nat) :
    Nat :=
  let base : Nat := if encoder.isHardware then 100 else 50
  let speed : Nat :=
    if testDuration < 2000 then 30
    else if testDuration < 5000 then 20
    else if testDuration < 10000 then 10
    else 0
  let vendorBonus : Nat :=
    match encoder.vendor with
    | .nvidia => 20
    | .intel => 15
    | .amd => 10
    | .software => 0
  base + speed + vendorBonus

/-- `EncoderCapabilityDetector.compareEncoders`, the comparator handed to
`Array.prototype.sort` (negative means `a` sorts before `b`). -/
def compareEncoders (a b : EncoderTestResult) : Int :=
  if a.isAvailable && !b.isAvailable then -1
  else if !a.isAvailable && b.isAvailable then 1
  else if a.isAvailable && b.isAvailable then
    ((b.performanceScore.getD 0 : Int) - (a.performanceScore.getD 0 : Int))
  else if a.encoder.isHardware && !b.encoder.isHardware then -1
  else if !a.encoder.isHardware && b.encoder.isHardware then 1
  else 0

/-- The sorting step of `EncoderCapabilityDetector.detectCapabilities`:
`results.sort(this.compareEncoders.bind(this))`. -/
def sortEncoderResults (results : List EncoderTestResult) :
    List EncoderTestResult :=
  results.mergeSort (fun a b => decide (compareEncoders a b ≤ 0))

/-! ## Device fallback manager
(`src/main/devices/DeviceFallbackManager.ts`) -/

/-- Outcome of `DeviceManager.validateAudioDevice(name)`. -/
structure DeviceValidation where
  isValid : Bool
  error : String := ""
deriving DecidableEq, Repr

/-- `DeviceFallbackManager.createDummyEncoder`. -/
def createDummyEncoder (name : String) : VideoEncoder :=
  { name := name
    displayName := name
    isHardware := !(name == "libx264")
    vendor := if name == "libx264" then .software else .nvidia
    testCommand := []
    isAvailable := some true }

/-- Result of the private `DeviceFallbackManager.configureVideoEncoder`. -/
structure VideoEncoderConfig where
  success : Bool
  primary : VideoEncoder
  fallbacks : List VideoEncoder
  appliedFallbacks : List String
  warnings : List String
  error : String
deriving DecidableEq, Repr

/-- The fallback arm of `configureVideoEncoder`: take the first available
test result, recording the substitution; fail if there is none.  Components:
success, primary, applied fallbacks, warnings, error. -/
def videoFallbackChoice (preferredEncoder : String)
    (encoderResults : List EncoderTestResult) :
    Bool × VideoEncoder × List String × List String × String :=
  match encoderResults.find? (fun r => r.isAvailable) with
  | some f =>
    (true, f.encoder,
      ["Video encoder fallback: " ++ preferredEncoder ++ " → " ++ f.encoder.name],
      ["Preferred encoder " ++ preferredEncoder ++ " not available, using " ++
        f.encoder.name],
      "")
  | none => (false, createDummyEncoder preferredEncoder, [], [],
      "No working video encoders found")

/-- Primary-encoder selection of `configureVideoEncoder`: the preferred
encoder when its test result is available, else the fallback arm. -/
def chooseVideoPrimary (preferredEncoder : String)
    (encoderResults : List EncoderTestResult) :
    Bool × VideoEncoder × List String × List String × String :=
  match encoderResults.find?
      (fun r => r.encoder.name == preferredEncoder) with
  | some preferred =>
    if preferred.isAvailable then (true, preferred.encoder, [], [], "")
    else videoFallbackChoice preferredEncoder encoderResults
  | none => videoFallbackChoice preferredEncoder encoderResults

/-- `DeviceFallbackManager.configureVideoEncoder`. -/
def configureVideoEncoder (preferredEncoder : String)
    (encoderResults : List EncoderTestResult) : VideoEncoderConfig :=
  { success := (chooseVideoPrimary preferredEncoder encoderResults).1
    primary := (chooseVideoPrimary preferredEncoder encoderResults).2.1
    fallbacks :=
      (encoderResults.filter (fun r => r.isAvailable && r.encoder.name !=
        (chooseVideoPrimary preferredEncoder encoderResults).2.1.name)).map
        (fun r => r.encoder)
    appliedFallbacks :=
      (chooseVideoPrimary preferredEncoder encoderResults).2.2.1
    warnings := (chooseVideoPrimary preferredEncoder encoderResults).2.2.2.1
    error := (chooseVideoPrimary preferredEncoder encoderResults).2.2.2.2 }

/-- Result of the private audio-configuration helpers
(`configureSystemAudio` / `configureMicrophone`). -/
structure AudioDeviceConfig where
  success : Bool
  primary : Option AudioDevice
  fallbacks : List AudioDevice
  appliedFallbacks : List String
  warnings : List String
  error : String
deriving DecidableEq, Repr

/-- First phase of the audio-configuration helpers: look up the preferred
device by name or id and, if present and available, validate it. -/
def audioFirstTry (preferredLabel : String) (preferredDevice : String)
    (audioDevices : List AudioDevice) (validate : String → DeviceValidation) :
    Bool × Option AudioDevice × List String :=
  match audioDevices.find?
      (fun d => d.name == preferredDevice || d.id == preferredDevice) with
  | some d =>
    if d.is_available then
      let validation := validate d.name
      if validation.isValid then (true, some d, [])
      else (false, none,
        [preferredLabel ++ " failed validation: " ++ validation.error])
    else (false, none, [])
  | none => (false, none, [])

/-- Second phase: if the preferred device did not work, walk the available
same-direction devices and take the first that validates, recording the
substitution. -/
def audioAfterFallback (wantedType : DeviceType)
    (fallbackLabel preferredDevice : String)
    (audioDevices : List AudioDevice) (validate : String → DeviceValidation)
    (firstTry : Bool × Option AudioDevice × List String) :
    Bool × Option AudioDevice × List String :=
  if firstTry.1 then (firstTry.1, firstTry.2.1, [])
  else
    let candidates := audioDevices.filter (fun d =>
      d.type == wantedType && d.is_available && d.name != preferredDevice)
    match candidates.find? (fun d => (validate d.name).isValid) with
    | some d =>
      (true, some d,
        [fallbackLabel ++ ": " ++ preferredDevice ++ " → " ++ d.name])
    | none => (false, none, [])

/-- Common body of `configureSystemAudio` (with `wantedType = output`,
fallback message prefix "System audio fallback"), and `configureMicrophone`
(`wantedType = input`, prefix "Microphone fallback").  `validate` is the
`DeviceManager.validateAudioDevice` oracle. -/
def configureAudioDevice (wantedType : DeviceType)
    (preferredLabel fallbackLabel noWorkingMsg : String)
    (preferredDevice : String) (audioDevices : List AudioDevice)
    (validate : String → DeviceValidation) : AudioDeviceConfig :=
  let firstTry := audioFirstTry preferredLabel preferredDevice audioDevices
    validate
  let afterFallback := audioAfterFallback wantedType fallbackLabel
    preferredDevice audioDevices validate firstTry
  { success := afterFallback.1
    primary := afterFallback.2.1
    fallbacks :=
      match afterFallback.2.1 with
      | some p => audioDevices.filter (fun d =>
          d.type == wantedType && d.is_available && d.id != p.id)
      | none => audioDevices.filter (fun d =>
          d.type == wantedType && d.is_available)
    appliedFallbacks := afterFallback.2.2
    warnings := firstTry.2.2
    error := if afterFallback.1 then "" else noWorkingMsg }

/-- `DeviceFallbackManager.configureSystemAudio`. -/
def configureSystemAudio (preferredDevice : String)
    (audioDevices : List AudioDevice) (validate : String → DeviceValidation) :
    AudioDeviceConfig :=
  configureAudioDevice .output "Preferred system audio device"
    "System audio fallback" "No working system audio devices found"
    preferredDevice audioDevices validate

/-- `DeviceFallbackManager.configureMicrophone`. -/
def configureMicrophone (preferredDevice : String)
    (audioDevices : List AudioDevice) (validate : String → DeviceValidation) :
    AudioDeviceConfig :=
  configureAudioDevice .input "Preferred microphone"
    "Microphone fallback" "No working microphone devices found"
    preferredDevice audioDevices validate

/-- `DeviceConfiguration` (the nested video/audio record flattened). -/
structure DeviceConfiguration where
  videoPrimary : VideoEncoder
  videoFallbacks : List VideoEncoder
  systemPrimary : Option AudioDevice
  systemFallbacks : List AudioDevice
  micPrimary : Option AudioDevice
  micFallbacks : List AudioDevice
deriving DecidableEq, Repr

/-- `ValidationResult`. -/
structure ValidationResult where
  isValid : Bool
  errors : List String
  warnings : List String
  appliedFallbacks : List String
  finalConfiguration : DeviceConfiguration
deriving DecidableEq, Repr

/-- The video-encoder block of
`DeviceFallbackManager.validateAndConfigureDevices`: initialise the result
(with the dummy primary) and apply the `configureVideoEncoder` outcome. -/
def videoStage (preferredVideoEncoder : String)
    (encoderResults : List EncoderTestResult) : ValidationResult :=
  let videoConfig := configureVideoEncoder preferredVideoEncoder encoderResults
  if videoConfig.success then
    { isValid := true
      errors := []
      warnings := videoConfig.warnings
      appliedFallbacks := videoConfig.appliedFallbacks
      finalConfiguration :=
        { videoPrimary := videoConfig.primary
          videoFallbacks := videoConfig.fallbacks
          systemPrimary := none, systemFallbacks := []
          micPrimary := none, micFallbacks := [] } }
  else
    { isValid := false
      errors := ["Video encoder configuration failed: " ++ videoConfig.error]
      warnings := []
      appliedFallbacks := []
      finalConfiguration :=
        { videoPrimary := createDummyEncoder preferredVideoEncoder
          videoFallbacks := []
          systemPrimary := none, systemFallbacks := []
          micPrimary := none, micFallbacks := [] } }

/-- The system-audio block of `validateAndConfigureDevices`. -/
def systemAudioStage (preferredSystemAudio : Option String)
    (audioDevices : List AudioDevice) (validate : String → DeviceValidation)
    (result : ValidationResult) : ValidationResult :=
  match preferredSystemAudio with
  | none => result
  | some p =>
    let c := configureSystemAudio p audioDevices validate
    if c.success then
      { result with
        finalConfiguration :=
          { result.finalConfiguration with
            systemPrimary := c.primary, systemFallbacks := c.fallbacks }
        appliedFallbacks := result.appliedFallbacks ++ c.appliedFallbacks
        warnings := result.warnings ++ c.warnings }
    else
      { result with
        warnings := result.warnings ++
          ["System audio configuration failed: " ++ c.error] }

/-- The microphone block of `validateAndConfigureDevices`. -/
def microphoneStage (preferredMicrophone : Option String)
    (audioDevices : List AudioDevice) (validate : String → DeviceValidation)
    (result : ValidationResult) : ValidationResult :=
  match preferredMicrophone with
  | none => result
  | some p =>
    let c := configureMicrophone p audioDevices validate
    if c.success then
      { result with
        finalConfiguration :=
          { result.finalConfiguration with
            micPrimary := c.primary, micFallbacks := c.fallbacks }
        appliedFallbacks := result.appliedFallbacks ++ c.appliedFallbacks
        warnings := result.warnings ++ c.warnings }
    else
      { result with
        warnings := result.warnings ++
          ["Microphone configuration failed: " ++ c.error] }

/-- `DeviceFallbackManager.validateAndConfigureDevices`: the three blocks in
source order.  JavaScript treats an absent or empty preferred-device string
as "not requested"; that truthiness test is modelled by `Option String`. -/
def validateAndConfigureDevices (preferredVideoEncoder : String)
    (preferredSystemAudio preferredMicrophone : Option String)
    (encoderResults : List EncoderTestResult)
    (audioDevices : List AudioDevice)
    (validate : String → DeviceValidation) : ValidationResult :=
  microphoneStage preferredMicrophone audioDevices validate
    (systemAudioStage preferredSystemAudio audioDevices validate
      (videoStage preferredVideoEncoder encoderResults))

/-! ## Config manager stores (`src/main/config/ConfigManager.ts`) -/

/-- `ConfigManager.addRecordingSession`: push, then keep only the last 100
entries (`sessions.splice(0, sessions.length - 100)`). -/
def addRecordingSession (sessions : List RecordingSession)
    (session : RecordingSession) : List RecordingSession :=
  let pushed := sessions ++ [session]
  if pushed.length > 100 then pushed.drop (pushed.length - 100) else pushed

/-- `ConfigManager.updateRecordingSession`: merge the partial update into the
first stored session whose id matches (`findIndex` + object spread).  The
update object built at each call site is passed as the function `f`. -/
def updateRecordingSession : List RecordingSession → Nat →
    (RecordingSession → RecordingSession) → List RecordingSession
  | [], _, _ => []
  | s :: rest, sid, f =>
    if s.sid = sid then f s :: rest
    else s :: updateRecordingSession rest sid f

/-- `ConfigManager.saveProfile`: replace the first profile with a matching id
(`findIndex`), else append. -/
def saveProfile : List QualityProfile → QualityProfile → List QualityProfile
  | [], p => [p]
  | q :: rest, p => if q.id = p.id then p :: rest else q :: saveProfile rest p

/-- `ConfigManager.getProfile`. -/
def getProfile (profiles : List QualityProfile) (id : String) :
    Option QualityProfile :=
  profiles.find? (fun p => p.id == id)

/-! ## Quality profile manager
(`src/main/recording/QualityProfileManager.ts`) -/

/-- JavaScript `String.prototype.trim`: strip whitespace from both ends. -/
def jsTrim (s : String) : String :=
  String.mk
    (((s.toList.dropWhile Char.isWhitespace).reverse.dropWhile
      Char.isWhitespace).reverse)

/-- Split a character list at every occurrence of `c`. -/
def splitOnChar (c : Char) : List Char → List (List Char)
  | [] => [[]]
  | a :: rest =>
    match splitOnChar c rest with
    | [] => [[a]]
    | h :: t => if a = c then [] :: h :: t else (a :: h) :: t

/-- `QualityProfileManager.isValidResolution`: the regex `^\d+x\d+$`
(exactly two non-empty all-digit runs separated by one `x`). -/
def isValidResolution (resolution : String) : Bool :=
  match splitOnChar 'x' resolution.toList with
  | [w, h] => !w.isEmpty && !h.isEmpty && w.all Char.isDigit && h.all Char.isDigit
  | _ => false

/-- `QualityProfileManager.validateProfile` (returns whether the error list
is empty). -/
def validateProfile (profile : QualityProfile) : Bool :=
  !((jsTrim profile.name).length == 0) &&
  !((jsTrim profile.id).length == 0) &&
  (0 < profile.video.bitrate_kbps && profile.video.bitrate_kbps ≤ 100000) &&
  (0 < profile.video.fps && profile.video.fps ≤ 120) &&
  isValidResolution profile.video.resolution &&
  !profile.video.encoder_priority.isEmpty &&
  (0 < profile.audio.bitrate_kbps && profile.audio.bitrate_kbps ≤ 1000) &&
  !profile.audio.codec.isEmpty

/-- `Partial<QualityProfile>`: each field optionally present. -/
structure ProfileUpdates where
  id : Option String := none
  name : Option String := none
  subtitle : Option String := none
  video : Option VideoProfileConfig := none
  audio : Option AudioProfileConfig := none
  description : Option String := none
deriving DecidableEq, Repr

/-- The merge in `QualityProfileManager.updateProfile`:
`{ ...existingProfile, ...updates, id }` — spread the updates over the
existing profile, then force the original id back. -/
def mergeProfileUpdates (existing : QualityProfile) (updates : ProfileUpdates) :
    QualityProfile :=
  { id := existing.id
    name := updates.name.getD existing.name
    subtitle := updates.subtitle.getD existing.subtitle
    video := updates.video.getD existing.video
    audio := updates.audio.getD existing.audio
    description := updates.description.getD existing.description }

/-- `QualityProfileManager.updateProfile`, acting on the persisted profile
list; returns the success flag and the resulting list. -/
def updateProfile (profiles : List QualityProfile) (id : String)
    (updates : ProfileUpdates) : Bool × List QualityProfile :=
  match getProfile profiles id with
  | none => (false, profiles)
  | some existing =>
    let updatedProfile := mergeProfileUpdates existing updates
    if validateProfile updatedProfile then
      (true, saveProfile profiles updatedProfile)
    else (false, profiles)

/-! ## Recording state machine
(`AppStateManager` in `src/main/core/AppStateManager.ts`).
The `ConfigManager` session store is carried in the state as `sessions`;
`clock` models `Date.now()`. -/

structure ASMState where
  isRecording : Bool
  recordingSession : Option RecordingSession
  sessions : List RecordingSession
  clock : Nat
deriving DecidableEq, Repr

def asmInit : ASMState :=
  { isRecording := false, recordingSession := none, sessions := [], clock := 0 }

/-- `AppStateManager.startRecording`. -/
def asmStartRecording (st : ASMState) (outputPath profile : String) :
    Bool × ASMState :=
  if st.isRecording then (false, st)
  else
    let session : RecordingSession :=
      { sid := st.clock
        startTime := st.clock
        endTime := none
        profile := profile
        outputPath := outputPath
        status := .recording
        fileSizeBytes := none
        durationSeconds := none
        errorMessage := none }
    (true,
      { isRecording := true
        recordingSession := some session
        sessions := addRecordingSession st.sessions session
        clock := st.clock + 1 })

/-- `AppStateManager.stopRecording`. -/
def asmStopRecording (st : ASMState) : Bool × ASMState :=
  match st.recordingSession with
  | none => (false, st)
  | some session =>
    if !st.isRecording then (false, st)
    else
      let endTime := st.clock
      (true,
        { isRecording := false
          recordingSession := none
          sessions := updateRecordingSession st.sessions session.sid (fun s =>
            { s with
              endTime := some endTime
              status := .stopped
              durationSeconds := some (endTime - session.startTime) })
          clock := st.clock + 1 })

/-- `AppStateManager.recordingError`. -/
def asmRecordingError (st : ASMState) (error : String) : ASMState :=
  match st.recordingSession with
  | some session =>
    { isRecording := false
      recordingSession := none
      sessions := updateRecordingSession st.sessions session.sid (fun s =>
        { s with
          status := .error
          errorMessage := some error
          endTime := some st.clock })
      clock := st.clock + 1 }
  | none =>
    { st with isRecording := false, clock := st.clock + 1 }

/-- One externally-invokable call on the state machine. -/
inductive ASMOp
  | start (outputPath profile : String)
  | stop
  | err (msg : String)

def asmStep (st : ASMState) : ASMOp → ASMState
  | .start outputPath profile => (asmStartRecording st outputPath profile).2
  | .stop => (asmStopRecording st).2
  | .err msg => asmRecordingError st msg

def asmRun (ops : List ASMOp) : ASMState := ops.foldl asmStep asmInit

/-! ## Recording engine (`src/main/recording/RecordingEngine.ts`).
It shares the `ConfigManager` session store with the state machine, so its
state embeds `ASMState`. -/

/-- Outcome of the awaited `ffmpegManager.stopRecording()` call: a resolved
boolean, or a rejection (which the engine's `catch` receives). -/
inductive StopOutcome
  | ok (success : Bool)
  | raised

structure EngineState where
  engineSession : Option RecordingSession
  asm : ASMState
deriving DecidableEq, Repr

def engineInit : EngineState := { engineSession := none, asm := asmInit }

/-- `RecordingEngine.startRecording`.  `canStart` is the
`safetyManager.canStartRecording()` verdict and `ffmpegOk` the resolution of
`ffmpegManager.startRecording(...)`; `createRecordingSession` persists the
engine's session before the process start, and on success
`stateManager.startRecording` persists a second one. -/
def engineStartRecording (st : EngineState) (canStart ffmpegOk : Bool)
    (outputPath profile : String) : Bool × EngineState :=
  if st.engineSession.isSome then (false, st)
  else if !canStart then (false, st)
  else
    let session : RecordingSession :=
      { sid := st.asm.clock
        startTime := st.asm.clock
        endTime := none
        profile := profile
        outputPath := outputPath
        status := .recording
        fileSizeBytes := none
        durationSeconds := none
        errorMessage := none }
    let asmAfterAdd :=
      { st.asm with
        sessions := addRecordingSession st.asm.sessions session
        clock := st.asm.clock + 1 }
    if !ffmpegOk then (false, { st with asm := asmAfterAdd })
    else
      (true,
        { engineSession := some session
          asm := (asmStartRecording asmAfterAdd outputPath profile).2 })

/-- `RecordingEngine.stopRecording`.  When the awaited
`ffmpegManager.stopRecording()` resolves (`.ok`, whether `true` or `false`)
cleanup proceeds; when it rejects (`.raised`) the `catch` returns `false`
without any cleanup.  `file_size_bytes` is `recordingStats.fileSize`, which
the source never updates from its initial 0. -/
def engineStopRecording (st : EngineState) (outcome : StopOutcome) :
    Bool × EngineState :=
  match st.engineSession with
  | none => (false, st)
  | some session =>
    match outcome with
    | .raised => (false, st)
    | .ok _ =>
      let endTime := st.asm.clock
      let asmAfterUpdate :=
        { st.asm with
          sessions := updateRecordingSession st.asm.sessions session.sid (fun s =>
            { s with
              endTime := some endTime
              status := .stopped
              durationSeconds := some (endTime - session.startTime)
              fileSizeBytes := some 0 })
          clock := st.asm.clock + 1 }
      (true,
        { engineSession := none
          asm := (asmStopRecording asmAfterUpdate).2 })

/-! ## Theorems -/

/-- C3 -- Amended.  An internal error while computing disk-space statistics
makes the Safety Monitor report the disk as both low and critical (the most
conservative reading); an internal error while computing system-load
statistics makes it report the system as *not* under stress (memory 0,
CPU 0) — the permissive reading, not the conservative one.  In neither case
does the error propagate: both functions return a defined status. -/
theorem safetyMonitor_error_degradation (min_free_space_mb : ℚ) :
    (getDiskSpace min_free_space_mb none).isLow = true ∧
    (getDiskSpace min_free_space_mb none).isCritical = true ∧
    (getSystemStatus none).isUnderStress = false ∧
    (getSystemStatus none).memoryUsage = 0 ∧
    (getSystemStatus none).cpuUsage = 0 :=
  ⟨rfl, rfl, rfl, rfl, rfl⟩

/-- C3 -- Counterexample to the claim as stated: on an internal error the
system reading is `isUnderStress = false`, not "under stress". -/
theorem safetyMonitor_error_not_conservative :
    (getSystemStatus none).isUnderStress = false := rfl

/-- C9 -- Confirmed.  (1) A hardware-tagged encoder candidate always scores
strictly higher than a software-tagged candidate (which carries the
`software` vendor tag, as all software candidates in the code base do),
whatever the two test durations.  (2) For a fixed candidate, a shorter test
duration never yields a strictly lower score. -/
theorem calculatePerformanceScore_spec :
    (∀ (hw sw : VideoEncoder) (d1 d2 : Nat),
      hw.isHardware = true → sw.isHardware = false → sw.vendor = .software →
      calculatePerformanceScore sw d2 < calculatePerformanceScore hw d1) ∧
    (∀ (e : VideoEncoder) (d d' : Nat), d ≤ d' →
      calculatePerformanceScore e d ≥ calculatePerformanceScore e d') := by
  constructor
  · intro hw sw d1 d2 hhw hsw hv
    cases hvv : hw.vendor <;>
      simp [calculatePerformanceScore, hhw, hsw, hv, hvv] <;>
      split_ifs <;> omega
  · intro e d d' hd
    simp only [calculatePerformanceScore]
    split_ifs <;> omega

/-- C9 -- Witness: NVENC (hardware) versus libx264 (software) at concrete
test durations. -/
theorem calculatePerformanceScore_spec_witness :
    calculatePerformanceScore (createDummyEncoder "libx264") 100 <
      calculatePerformanceScore
        { name := "h264_nvenc", displayName := "NVIDIA NVENC",
          isHardware := true, vendor := .nvidia, testCommand := [] } 9999 ∧
    calculatePerformanceScore (createDummyEncoder "libx264") 100 ≥
      calculatePerformanceScore (createDummyEncoder "libx264") 4000 :=
  ⟨calculatePerformanceScore_spec.1 _ _ 9999 100 rfl (by decide) (by decide),
   calculatePerformanceScore_spec.2 _ 100 4000 (by decide)⟩

/-- `getProfile` finds the profile just written by `saveProfile` under the
written profile's own id. -/
theorem getProfile_saveProfile_self (profiles : List QualityProfile)
    (p : QualityProfile) :
    getProfile (saveProfile profiles p) p.id = some p := by
  induction profiles with
  | nil => simp [saveProfile, getProfile]
  | cons q rest ih =>
    by_cases h : q.id = p.id
    · simp [saveProfile, getProfile, h]
    · simpa [saveProfile, getProfile, List.find?, h] using ih

/-- C10 -- Confirmed.  A successful `updateProfile(id, updates)` leaves a
profile stored under `id` whose identifier is still `id`, even when the
update object carries a different identifier. -/
theorem updateProfile_preserves_id (profiles : List QualityProfile)
    (id : String) (updates : ProfileUpdates)
    (h : (updateProfile profiles id updates).1 = true) :
    ∃ p, getProfile (updateProfile profiles id updates).2 id = some p ∧
      p.id = id := by
  cases hfind : getProfile profiles id with
  | none => simp [updateProfile, hfind] at h
  | some existing =>
    have hid : existing.id = id := by
      have := List.find?_some (by simpa [getProfile] using hfind)
      simpa using this
    by_cases hv : validateProfile (mergeProfileUpdates existing updates) = true
    · refine ⟨mergeProfileUpdates existing updates, ?_, ?_⟩
      · have hself := getProfile_saveProfile_self profiles
          (mergeProfileUpdates existing updates)
        simp only [updateProfile, hfind, hv, if_true]
        simpa [mergeProfileUpdates, hid] using hself
      · simp [mergeProfileUpdates, hid]
    · simp [updateProfile, hfind, hv] at h

/-- C10 -- Witness: updating the stored `medium` profile with an update
object whose identifier field is `evil` still leaves the profile stored
under `medium` with identifier `medium`. -/
theorem updateProfile_preserves_id_witness :
    (updateProfile
      [{ id := "medium", name := "Medium Quality", subtitle := "Balanced",
         video := { resolution := "1920x1080", fps := 30, bitrate_kbps := 8000,
                    encoder_priority := ["libx264"] },
         audio := { bitrate_kbps := 160, codec := "aac" },
         description := "Balanced quality" }]
      "medium"
      { id := some "evil", name := some "Renamed" }).1 = true ∧
    (∃ p, getProfile
      (updateProfile
        [{ id := "medium", name := "Medium Quality", subtitle := "Balanced",
           video := { resolution := "1920x1080", fps := 30, bitrate_kbps := 8000,
                      encoder_priority := ["libx264"] },
           audio := { bitrate_kbps := 160, codec := "aac" },
           description := "Balanced quality" }]
        "medium"
        { id := some "evil", name := some "Renamed" }).2 "medium" = some p ∧
      p.id = "medium") :=
  ⟨by decide, updateProfile_preserves_id _ _ _ (by decide)⟩

/-- C4 -- Confirmed.  With both probes succeeding, `canStartRecording`
returns `canStart = false` exactly when the disk is critical (free space,
in MB, strictly below the configured minimum) or the system is under stress
(memory > 85 or CPU > 90); for free space at or above the minimum but below
twice the minimum with no stress it returns `canStart = true` with a
non-empty advisory reason; otherwise `(true, none)`. -/
theorem canStartRecording_spec
    (min_free_space_mb max_duration_minutes free total recDur mem cpu : ℚ) :
    ((canStartRecording (getSafetyStatus min_free_space_mb
        max_duration_minutes (some (free, total)) recDur
        (some (mem, cpu)))).1 = false ↔
      (free / 1024 / 1024 < min_free_space_mb ∨ mem > 85 ∨ cpu > 90)) ∧
    (min_free_space_mb ≤ free / 1024 / 1024 →
      free / 1024 / 1024 < min_free_space_mb * 2 →
      ¬(mem > 85 ∨ cpu > 90) →
      (canStartRecording (getSafetyStatus min_free_space_mb
          max_duration_minutes (some (free, total)) recDur
          (some (mem, cpu)))).1 = true ∧
      ∃ reason,
        (canStartRecording (getSafetyStatus min_free_space_mb
            max_duration_minutes (some (free, total)) recDur
            (some (mem, cpu)))).2 = some reason ∧ reason.length ≠ 0) ∧
    (0 ≤ min_free_space_mb →
      min_free_space_mb * 2 ≤ free / 1024 / 1024 →
      ¬(mem > 85 ∨ cpu > 90) →
      canStartRecording (getSafetyStatus min_free_space_mb
          max_duration_minutes (some (free, total)) recDur
          (some (mem, cpu))) = (true, none)) := by
  have hlen : ∀ z : ℤ,
      ("Warning: Low disk space (" ++ toString z ++ " MB remaining)").length ≠ 0 := by
    intro z
    have h25 : ("Warning: Low disk space (" : String).length = 25 := rfl
    simp only [String.length_append]
    omega
  refine ⟨?_, ?_, ?_⟩
  · by_cases hcrit : free / 1024 / 1024 < min_free_space_mb <;>
      by_cases hm : mem > 85 <;> by_cases hc : cpu > 90 <;>
      by_cases hlow : free / 1024 / 1024 < min_free_space_mb * 2 <;>
      simp [canStartRecording, getSafetyStatus, getDiskSpace, getSystemStatus,
        hcrit, hm, hc, hlow]
  · intro h1 h2 h3
    have hcrit : ¬(free / 1024 / 1024 < min_free_space_mb) := not_lt.mpr h1
    have hm : ¬(mem > 85) := fun h => h3 (Or.inl h)
    have hc : ¬(cpu > 90) := fun h => h3 (Or.inr h)
    refine ⟨?_, ?_⟩
    · simp [canStartRecording, getSafetyStatus, getDiskSpace, getSystemStatus,
        hcrit, hm, hc, h2]
    · refine ⟨"Warning: Low disk space (" ++
        toString (jsRound (free / 1024 / 1024)) ++ " MB remaining)", ?_, hlen _⟩
      simp [canStartRecording, getSafetyStatus, getDiskSpace, getSystemStatus,
        hcrit, hm, hc, h2]
  · intro h0 h1 h3
    have hcrit : ¬(free / 1024 / 1024 < min_free_space_mb) := by
      intro h
      nlinarith
    have hlow : ¬(free / 1024 / 1024 < min_free_space_mb * 2) := not_lt.mpr h1
    have hm : ¬(mem > 85) := fun h => h3 (Or.inl h)
    have hc : ¬(cpu > 90) := fun h => h3 (Or.inr h)
    simp [canStartRecording, getSafetyStatus, getDiskSpace, getSystemStatus,
      hcrit, hm, hc, hlow]

/-- C4 -- Witness: 1500 MB free with a 1024 MB minimum (between the
critical threshold and twice the threshold) and a calm system yields
`canStart = true` with a non-empty reason. -/
theorem canStartRecording_spec_witness :
    (canStartRecording (getSafetyStatus 1024 240
        (some (1500 * 1024 * 1024, 100000 * 1024 * 1024)) 0
        (some (10, 10)))).1 = true ∧
    ∃ reason,
      (canStartRecording (getSafetyStatus 1024 240
          (some (1500 * 1024 * 1024, 100000 * 1024 * 1024)) 0
          (some (10, 10)))).2 = some reason ∧ reason.length ≠ 0 :=
  (canStartRecording_spec 1024 240 (1500 * 1024 * 1024)
      (100000 * 1024 * 1024) 0 10 10).2.1
    (by norm_num) (by norm_num) (by norm_num)

/-- C6 -- Amended.  On a safety tick taken while recording: with a positive
configured maximum, the emergency stop fires exactly when the elapsed
duration has reached the maximum, and the duration warning fires exactly
when the elapsed duration *strictly exceeds* 80% of the maximum but has not
yet reached it (so no warning is emitted at exactly 80%, nor on the tick
that stops); with a configured maximum of 0 the duration check never warns
and never stops, for any elapsed duration. -/
theorem checkRecordingDuration_spec (durSec maxMin : ℚ) :
    (0 < maxMin →
      ((checkRecordingDuration true
          (getDurationStatus durSec maxMin)).stopTriggered = true ↔
        maxMin ≤ durSec / 60) ∧
      ((checkRecordingDuration true
          (getDurationStatus durSec maxMin)).warned = true ↔
        (4 / 5 * maxMin < durSec / 60 ∧ durSec / 60 < maxMin))) ∧
    (maxMin = 0 →
      checkRecordingDuration true (getDurationStatus durSec maxMin) =
        { stopTriggered := false, warned := false }) := by
  constructor
  · intro hpos
    have hA : ((durSec / 60) / maxMin * 100 ≥ 100) ↔ maxMin ≤ durSec / 60 := by
      have h100 : (100 : ℚ) ≤ durSec / 60 / maxMin * 100 ↔
          1 ≤ durSec / 60 / maxMin := by
        constructor <;> intro h <;> linarith
      rw [ge_iff_le, h100, one_le_div hpos]
    have hB : ((durSec / 60) / maxMin * 100 > 80) ↔
        4 / 5 * maxMin < durSec / 60 := by
      have h80 : (80 : ℚ) < durSec / 60 / maxMin * 100 ↔
          4 / 5 < durSec / 60 / maxMin := by
        constructor <;> intro h <;> linarith
      rw [gt_iff_lt, h80, lt_div_iff₀ hpos]
    by_cases h1 : maxMin ≤ durSec / 60 <;>
      by_cases h2 : 4 / 5 * maxMin < durSec / 60
    · exact ⟨by simp [checkRecordingDuration, getDurationStatus, hpos, hA, h1],
        by simp [checkRecordingDuration, getDurationStatus, hpos, hA, h1,
          not_lt.mpr h1]⟩
    · exact absurd (lt_of_lt_of_le (by nlinarith) h1) h2
    · exact ⟨by simp [checkRecordingDuration, getDurationStatus, hpos, hA, hB,
          h1, h2],
        by simp [checkRecordingDuration, getDurationStatus, hpos, hA, hB, h1, h2,
          not_le.mp h1]⟩
    · exact ⟨by simp [checkRecordingDuration, getDurationStatus, hpos, hA, hB,
          h1, h2],
        by simp [checkRecordingDuration, getDurationStatus, hpos, hA, hB, h1, h2]⟩
  · intro h
    subst h
    simp [checkRecordingDuration, getDurationStatus]

/-- C6 -- Witness: with a 10-minute maximum, a tick at 9 minutes (past 80%,
below 100%) warns without stopping, and with a 0 maximum a tick at 100000
seconds does nothing. -/
theorem checkRecordingDuration_spec_witness :
    ((checkRecordingDuration true (getDurationStatus 540 10)).warned = true ↔
      (4 / 5 * 10 < (540 : ℚ) / 60 ∧ (540 : ℚ) / 60 < 10)) ∧
    checkRecordingDuration true (getDurationStatus 100000 0) =
      { stopTriggered := false, warned := false } :=
  ⟨((checkRecordingDuration_spec 540 10).1 (by norm_num)).2,
   (checkRecordingDuration_spec 100000 0).2 rfl⟩

/-- C6 -- Counterexample to the claim as stated: with a 10-minute maximum, a
tick while recording at exactly 8 minutes elapsed — exactly 80% of the
maximum — emits no warning (the code warns only strictly above 80%); at 10
minutes the emergency stop fires without a warning. -/
theorem duration_warning_not_at_80 :
    (checkRecordingDuration true (getDurationStatus 480 10)).warned = false ∧
    (getDurationStatus 480 10).current =
      80 / 100 * (getDurationStatus 480 10).maximum ∧
    (checkRecordingDuration true (getDurationStatus 600 10)).stopTriggered = true ∧
    (checkRecordingDuration true (getDurationStatus 600 10)).warned = false := by
  norm_num [checkRecordingDuration, getDurationStatus]

/-- The encoder comparator is total: one of the two orientations is
non-positive. -/
theorem compareEncoders_total (a b : EncoderTestResult) :
    compareEncoders a b ≤ 0 ∨ compareEncoders b a ≤ 0 := by
  cases ha : a.isAvailable <;> cases hb : b.isAvailable <;>
    cases hha : a.encoder.isHardware <;> cases hhb : b.encoder.isHardware <;>
    simp [compareEncoders, ha, hb, hha, hhb] <;> omega

/-- The encoder comparator is transitive on its non-positive orientation. -/
theorem compareEncoders_trans (a b c : EncoderTestResult) :
    compareEncoders a b ≤ 0 → compareEncoders b c ≤ 0 →
    compareEncoders a c ≤ 0 := by
  cases ha : a.isAvailable <;> cases hb : b.isAvailable <;>
    cases hc : c.isAvailable <;>
    cases hha : a.encoder.isHardware <;> cases hhb : b.encoder.isHardware <;>
    cases hhc : c.encoder.isHardware <;>
    simp [compareEncoders, ha, hb, hc, hha, hhb, hhc] <;> omega

/-- A non-positive comparison means: no available result after an
unavailable one, and scores non-increasing among available results. -/
theorem compareEncoders_nonpos_imp (a b : EncoderTestResult)
    (h : compareEncoders a b ≤ 0) :
    (a.isAvailable = false → b.isAvailable = false) ∧
    (a.isAvailable = true → b.isAvailable = true →
      b.performanceScore.getD 0 ≤ a.performanceScore.getD 0) := by
  cases ha : a.isAvailable <;> cases hb : b.isAvailable <;>
    simp_all [compareEncoders] <;> omega

/-- C8 -- Confirmed.  For any list of per-candidate test results and any
permutation of it, the sorting step of `detectCapabilities` returns a
permutation of the results in which every available candidate precedes every
unavailable one and, among available candidates, performance scores are
non-increasing. -/
theorem detectCapabilities_sorted (l l' : List EncoderTestResult)
    (h : l'.Perm l) :
    (sortEncoderResults l').Perm l ∧
    (sortEncoderResults l').Pairwise (fun a b =>
      (a.isAvailable = false → b.isAvailable = false) ∧
      (a.isAvailable = true → b.isAvailable = true →
        b.performanceScore.getD 0 ≤ a.performanceScore.getD 0)) := by
  constructor
  · exact (List.mergeSort_perm l' _).trans h
  · have hs := @List.sorted_mergeSort EncoderTestResult
      (fun a b => decide (compareEncoders a b ≤ 0))
      (fun a b c h1 h2 => by
        simp only [decide_eq_true_eq] at h1 h2 ⊢
        exact compareEncoders_trans a b c h1 h2)
      (fun a b => by
        simp only [Bool.or_eq_true, decide_eq_true_eq]
        exact compareEncoders_total a b)
      l'
    exact hs.imp (fun hab => by
      exact compareEncoders_nonpos_imp _ _ (by simpa using hab))

/-- C8 -- Witness: a three-result list (unavailable hardware result first,
then two available results with increasing scores) presented in reversed
input order. -/
theorem detectCapabilities_sorted_witness :
    ([{ encoder := createDummyEncoder "h264_nvenc", isAvailable := true,
        testDuration := 100, performanceScore := some 150 },
      { encoder := createDummyEncoder "libx264", isAvailable := true,
        testDuration := 200, performanceScore := some 80 },
      { encoder := createDummyEncoder "h264_qsv", isAvailable := false,
        testDuration := 50 }] : List EncoderTestResult).Perm
      [{ encoder := createDummyEncoder "h264_qsv", isAvailable := false,
         testDuration := 50 },
       { encoder := createDummyEncoder "libx264", isAvailable := true,
         testDuration := 200, performanceScore := some 80 },
       { encoder := createDummyEncoder "h264_nvenc", isAvailable := true,
         testDuration := 100, performanceScore := some 150 }] ∧
    (sortEncoderResults
      [{ encoder := createDummyEncoder "h264_nvenc", isAvailable := true,
         testDuration := 100, performanceScore := some 150 },
       { encoder := createDummyEncoder "libx264", isAvailable := true,
         testDuration := 200, performanceScore := some 80 },
       { encoder := createDummyEncoder "h264_qsv", isAvailable := false,
         testDuration := 50 }]).Pairwise (fun a b =>
      (a.isAvailable = false → b.isAvailable = false) ∧
      (a.isAvailable = true → b.isAvailable = true →
        b.performanceScore.getD 0 ≤ a.performanceScore.getD 0)) :=
  ⟨by decide,
   (detectCapabilities_sorted
     [{ encoder := createDummyEncoder "h264_qsv", isAvailable := false,
        testDuration := 50 },
      { encoder := createDummyEncoder "libx264", isAvailable := true,
        testDuration := 200, performanceScore := some 80 },
      { encoder := createDummyEncoder "h264_nvenc", isAvailable := true,
        testDuration := 100, performanceScore := some 150 }]
     [{ encoder := createDummyEncoder "h264_nvenc", isAvailable := true,
        testDuration := 100, performanceScore := some 150 },
      { encoder := createDummyEncoder "libx264", isAvailable := true,
        testDuration := 200, performanceScore := some 80 },
      { encoder := createDummyEncoder "h264_qsv", isAvailable := false,
        testDuration := 50 }]
     (by decide)).2⟩

/-- The fallback arm succeeds exactly when some test result is available. -/
theorem videoFallbackChoice_success_iff (pref : String)
    (rs : List EncoderTestResult) :
    (videoFallbackChoice pref rs).1 = true ↔
      ∃ r ∈ rs, r.isAvailable = true := by
  unfold videoFallbackChoice
  cases hf : rs.find? (fun r => r.isAvailable) with
  | none =>
    have hno := List.find?_eq_none.mp hf
    simp only [Bool.false_eq_true, false_iff]
    rintro ⟨r, hr, hav⟩
    exact absurd hav (by simpa using hno r hr)
  | some f =>
    simp only [true_iff]
    exact ⟨f, List.mem_of_find?_eq_some hf, List.find?_some hf⟩

theorem configureVideoEncoder_success_iff (pref : String)
    (rs : List EncoderTestResult) :
    (configureVideoEncoder pref rs).success = true ↔
      ∃ r ∈ rs, r.isAvailable = true := by
  show (chooseVideoPrimary pref rs).1 = true ↔ _
  cases hp : rs.find? (fun r => r.encoder.name == pref) with
  | none =>
    have hc : chooseVideoPrimary pref rs = videoFallbackChoice pref rs := by
      unfold chooseVideoPrimary; rw [hp]
    rw [hc]
    exact videoFallbackChoice_success_iff pref rs
  | some preferred =>
    have hc : chooseVideoPrimary pref rs =
        if preferred.isAvailable = true then
          (true, preferred.encoder, [], [], "")
        else videoFallbackChoice pref rs := by
      unfold chooseVideoPrimary; rw [hp]
    by_cases hav : preferred.isAvailable = true
    · rw [hc, if_pos hav]
      exact iff_of_true rfl ⟨preferred, List.mem_of_find?_eq_some hp, hav⟩
    · rw [hc, if_neg hav]
      exact videoFallbackChoice_success_iff pref rs

/-- The fallback arm records its substitution whenever it succeeds. -/
theorem videoFallbackChoice_recorded (pref : String)
    (rs : List EncoderTestResult)
    (hs : (videoFallbackChoice pref rs).1 = true) :
    ("Video encoder fallback: " ++ pref ++ " → " ++
      (videoFallbackChoice pref rs).2.1.name) ∈
      (videoFallbackChoice pref rs).2.2.1 := by
  unfold videoFallbackChoice at hs ⊢
  cases hf : rs.find? (fun r => r.isAvailable) with
  | none => rw [hf] at hs; simp at hs
  | some f => simp

theorem configureVideoEncoder_fallback_recorded (pref : String)
    (rs : List EncoderTestResult)
    (hs : (configureVideoEncoder pref rs).success = true)
    (hne : (configureVideoEncoder pref rs).primary.name ≠ pref) :
    ("Video encoder fallback: " ++ pref ++ " → " ++
      (configureVideoEncoder pref rs).primary.name) ∈
      (configureVideoEncoder pref rs).appliedFallbacks := by
  have hs' : (chooseVideoPrimary pref rs).1 = true := hs
  have hne' : (chooseVideoPrimary pref rs).2.1.name ≠ pref := hne
  show ("Video encoder fallback: " ++ pref ++ " → " ++
    (chooseVideoPrimary pref rs).2.1.name) ∈ (chooseVideoPrimary pref rs).2.2.1
  cases hp : rs.find? (fun r => r.encoder.name == pref) with
  | none =>
    have hc : chooseVideoPrimary pref rs = videoFallbackChoice pref rs := by
      unfold chooseVideoPrimary; rw [hp]
    rw [hc] at hs' ⊢
    exact videoFallbackChoice_recorded pref rs hs'
  | some preferred =>
    have hc : chooseVideoPrimary pref rs =
        if preferred.isAvailable = true then
          (true, preferred.encoder, [], [], "")
        else videoFallbackChoice pref rs := by
      unfold chooseVideoPrimary; rw [hp]
    by_cases hav : preferred.isAvailable = true
    · rw [hc, if_pos hav] at hne'
      have := List.find?_some hp
      exact absurd (by simpa using this) (by simpa using hne')
    · rw [hc, if_neg hav] at hs' ⊢
      exact videoFallbackChoice_recorded pref rs hs'

/-- When the preferred-device phase succeeds, its device matched the
preferred name or id. -/
theorem audioFirstTry_success (pl pref : String) (ds : List AudioDevice)
    (v : String → DeviceValidation)
    (h : (audioFirstTry pl pref ds v).1 = true) :
    ∃ d, (audioFirstTry pl pref ds v).2.1 = some d ∧
      (d.name = pref ∨ d.id = pref) := by
  cases hp : ds.find? (fun d => d.name == pref || d.id == pref) with
  | none =>
    have hc : audioFirstTry pl pref ds v = (false, none, []) := by
      unfold audioFirstTry; rw [hp]
    rw [hc] at h; simp at h
  | some d =>
    have hc : audioFirstTry pl pref ds v =
        if d.is_available = true then
          (if (v d.name).isValid = true then (true, some d, [])
           else (false, none,
             [pl ++ " failed validation: " ++ (v d.name).error]))
        else (false, none, []) := by
      unfold audioFirstTry; rw [hp]
    by_cases hav : d.is_available = true
    · by_cases hv : (v d.name).isValid = true
      · rw [hc, if_pos hav, if_pos hv]
        have := List.find?_some hp
        exact ⟨d, rfl, by simpa using this⟩
      · rw [hc, if_pos hav, if_neg hv] at h; simp at h
    · rw [hc, if_neg hav] at h; simp at h

/-- A chosen primary implies success of the audio configuration. -/
theorem configureAudioDevice_primary_success (t : DeviceType)
    (pl fl nm pref : String) (ds : List AudioDevice)
    (v : String → DeviceValidation) (d : AudioDevice)
    (h : (configureAudioDevice t pl fl nm pref ds v).primary = some d) :
    (configureAudioDevice t pl fl nm pref ds v).success = true := by
  have hps : (configureAudioDevice t pl fl nm pref ds v).primary =
      (audioAfterFallback t fl pref ds v (audioFirstTry pl pref ds v)).2.1 := rfl
  have hss : (configureAudioDevice t pl fl nm pref ds v).success =
      (audioAfterFallback t fl pref ds v (audioFirstTry pl pref ds v)).1 := rfl
  rw [hps] at h
  rw [hss]
  by_cases h1 : (audioFirstTry pl pref ds v).1 = true
  · have hc : audioAfterFallback t fl pref ds v (audioFirstTry pl pref ds v) =
        ((audioFirstTry pl pref ds v).1, (audioFirstTry pl pref ds v).2.1,
          []) := by
      unfold audioAfterFallback; rw [if_pos h1]
    rw [hc]
    exact h1
  · have hc : audioAfterFallback t fl pref ds v (audioFirstTry pl pref ds v) =
        match (ds.filter (fun d => d.type == t && d.is_available &&
            d.name != pref)).find? (fun d => (v d.name).isValid) with
        | some d => (true, some d, [fl ++ ": " ++ pref ++ " → " ++ d.name])
        | none => (false, none, []) := by
      unfold audioAfterFallback; rw [if_neg h1]
    cases hf : (ds.filter (fun d => d.type == t && d.is_available &&
        d.name != pref)).find? (fun d => (v d.name).isValid) with
    | none => rw [hc, hf] at h; simp at h
    | some d' => rw [hc, hf]

/-- An audio configuration that chose a device other than the preferred one
(by name and id) has recorded the substitution. -/
theorem configureAudioDevice_fallback_recorded (t : DeviceType)
    (pl fl nm pref : String) (ds : List AudioDevice)
    (v : String → DeviceValidation) (d : AudioDevice)
    (h : (configureAudioDevice t pl fl nm pref ds v).primary = some d)
    (hn : d.name ≠ pref) (hi : d.id ≠ pref) :
    (fl ++ ": " ++ pref ++ " → " ++ d.name) ∈
      (configureAudioDevice t pl fl nm pref ds v).appliedFallbacks := by
  have hps : (configureAudioDevice t pl fl nm pref ds v).primary =
      (audioAfterFallback t fl pref ds v (audioFirstTry pl pref ds v)).2.1 := rfl
  have haf : (configureAudioDevice t pl fl nm pref ds v).appliedFallbacks =
      (audioAfterFallback t fl pref ds v (audioFirstTry pl pref ds v)).2.2 := rfl
  rw [hps] at h
  rw [haf]
  by_cases h1 : (audioFirstTry pl pref ds v).1 = true
  · have hc : audioAfterFallback t fl pref ds v (audioFirstTry pl pref ds v) =
        ((audioFirstTry pl pref ds v).1, (audioFirstTry pl pref ds v).2.1,
          []) := by
      unfold audioAfterFallback; rw [if_pos h1]
    rw [hc] at h
    obtain ⟨d', hd', hmatch⟩ := audioFirstTry_success pl pref ds v h1
    have hdd : d' = d := by
      have hsome : some d' = some d := hd' ▸ h
      simpa using hsome
    subst hdd
    rcases hmatch with hm | hm
    · exact absurd hm hn
    · exact absurd hm hi
  · have hc : audioAfterFallback t fl pref ds v (audioFirstTry pl pref ds v) =
        match (ds.filter (fun d => d.type == t && d.is_available &&
            d.name != pref)).find? (fun d => (v d.name).isValid) with
        | some d => (true, some d, [fl ++ ": " ++ pref ++ " → " ++ d.name])
        | none => (false, none, []) := by
      unfold audioAfterFallback; rw [if_neg h1]
    cases hf : (ds.filter (fun d => d.type == t && d.is_available &&
        d.name != pref)).find? (fun d => (v d.name).isValid) with
    | none => rw [hc, hf] at h; simp at h
    | some d' =>
      rw [hc, hf] at h ⊢
      have hdd : d' = d := by simpa using h
      subst hdd
      simp

/-- A failed audio configuration carries the "no working devices" error and
records no substitutions. -/
theorem configureAudioDevice_fail (t : DeviceType) (pl fl nm pref : String)
    (ds : List AudioDevice) (v : String → DeviceValidation)
    (h : (configureAudioDevice t pl fl nm pref ds v).success = false) :
    (configureAudioDevice t pl fl nm pref ds v).error = nm ∧
    (configureAudioDevice t pl fl nm pref ds v).appliedFallbacks = [] := by
  have herr : (configureAudioDevice t pl fl nm pref ds v).error =
      if (configureAudioDevice t pl fl nm pref ds v).success then "" else nm := rfl
  refine ⟨by rw [herr, h]; rfl, ?_⟩
  have hss : (configureAudioDevice t pl fl nm pref ds v).success =
      (audioAfterFallback t fl pref ds v (audioFirstTry pl pref ds v)).1 := rfl
  have haf : (configureAudioDevice t pl fl nm pref ds v).appliedFallbacks =
      (audioAfterFallback t fl pref ds v (audioFirstTry pl pref ds v)).2.2 := rfl
  rw [hss] at h
  rw [haf]
  by_cases h1 : (audioFirstTry pl pref ds v).1 = true
  · have hc : audioAfterFallback t fl pref ds v (audioFirstTry pl pref ds v) =
        ((audioFirstTry pl pref ds v).1, (audioFirstTry pl pref ds v).2.1,
          []) := by
      unfold audioAfterFallback; rw [if_pos h1]
    rw [hc] at h
    exact absurd h1 (by simpa using h)
  · have hc : audioAfterFallback t fl pref ds v (audioFirstTry pl pref ds v) =
        match (ds.filter (fun d => d.type == t && d.is_available &&
            d.name != pref)).find? (fun d => (v d.name).isValid) with
        | some d => (true, some d, [fl ++ ": " ++ pref ++ " → " ++ d.name])
        | none => (false, none, []) := by
      unfold audioAfterFallback; rw [if_neg h1]
    cases hf : (ds.filter (fun d => d.type == t && d.is_available &&
        d.name != pref)).find? (fun d => (v d.name).isValid) with
    | none => rw [hc, hf]
    | some d' => rw [hc, hf] at h; simp at h


/-- The video stage's validity flag is the video configuration's success. -/
theorem videoStage_isValid (pv : String) (rs : List EncoderTestResult) :
    (videoStage pv rs).isValid = (configureVideoEncoder pv rs).success := by
  by_cases hv : (configureVideoEncoder pv rs).success = true <;>
    simp [videoStage, hv]

theorem videoStage_errors_success (pv : String) (rs : List EncoderTestResult)
    (hv : (configureVideoEncoder pv rs).success = true) :
    (videoStage pv rs).errors = [] := by
  simp [videoStage, hv]

theorem videoStage_errors_fail (pv : String) (rs : List EncoderTestResult)
    (hv : (configureVideoEncoder pv rs).success = false) :
    (videoStage pv rs).errors =
      ["Video encoder configuration failed: " ++
        (configureVideoEncoder pv rs).error] := by
  simp [videoStage, hv]

theorem videoStage_primary_success (pv : String) (rs : List EncoderTestResult)
    (hv : (configureVideoEncoder pv rs).success = true) :
    (videoStage pv rs).finalConfiguration.videoPrimary =
      (configureVideoEncoder pv rs).primary := by
  simp [videoStage, hv]

theorem videoStage_applied_success (pv : String) (rs : List EncoderTestResult)
    (hv : (configureVideoEncoder pv rs).success = true) :
    (videoStage pv rs).appliedFallbacks =
      (configureVideoEncoder pv rs).appliedFallbacks := by
  simp [videoStage, hv]

/-- The system-audio stage never changes validity, errors, or the video
primary. -/
theorem systemAudioStage_preserves (ps : Option String)
    (ds : List AudioDevice) (v : String → DeviceValidation)
    (r : ValidationResult) :
    (systemAudioStage ps ds v r).isValid = r.isValid ∧
    (systemAudioStage ps ds v r).errors = r.errors ∧
    (systemAudioStage ps ds v r).finalConfiguration.videoPrimary =
      r.finalConfiguration.videoPrimary := by
  cases ps with
  | none => exact ⟨rfl, rfl, rfl⟩
  | some p =>
    by_cases hc : (configureSystemAudio p ds v).success = true <;>
      simp [systemAudioStage, hc]

/-- The microphone stage never changes validity, errors, or the video
primary. -/
theorem microphoneStage_preserves (pm : Option String)
    (ds : List AudioDevice) (v : String → DeviceValidation)
    (r : ValidationResult) :
    (microphoneStage pm ds v r).isValid = r.isValid ∧
    (microphoneStage pm ds v r).errors = r.errors ∧
    (microphoneStage pm ds v r).finalConfiguration.videoPrimary =
      r.finalConfiguration.videoPrimary := by
  cases pm with
  | none => exact ⟨rfl, rfl, rfl⟩
  | some p =>
    by_cases hc : (configureMicrophone p ds v).success = true <;>
      simp [microphoneStage, hc]

/-- Both audio stages only append to warnings and applied fallbacks. -/
theorem systemAudioStage_ext (ps : Option String) (ds : List AudioDevice)
    (v : String → DeviceValidation) (r : ValidationResult) :
    (∃ extra, (systemAudioStage ps ds v r).warnings = r.warnings ++ extra) ∧
    (∃ extra, (systemAudioStage ps ds v r).appliedFallbacks =
      r.appliedFallbacks ++ extra) := by
  cases ps with
  | none => exact ⟨⟨[], by simp [systemAudioStage]⟩, ⟨[], by simp [systemAudioStage]⟩⟩
  | some p =>
    by_cases hc : (configureSystemAudio p ds v).success = true
    · exact ⟨⟨(configureSystemAudio p ds v).warnings,
        by simp [systemAudioStage, hc]⟩,
        ⟨(configureSystemAudio p ds v).appliedFallbacks,
        by simp [systemAudioStage, hc]⟩⟩
    · exact ⟨⟨["System audio configuration failed: " ++
          (configureSystemAudio p ds v).error],
        by simp [systemAudioStage, hc]⟩,
        ⟨[], by simp [systemAudioStage, hc]⟩⟩

theorem microphoneStage_ext (pm : Option String) (ds : List AudioDevice)
    (v : String → DeviceValidation) (r : ValidationResult) :
    (∃ extra, (microphoneStage pm ds v r).warnings = r.warnings ++ extra) ∧
    (∃ extra, (microphoneStage pm ds v r).appliedFallbacks =
      r.appliedFallbacks ++ extra) := by
  cases pm with
  | none => exact ⟨⟨[], by simp [microphoneStage]⟩, ⟨[], by simp [microphoneStage]⟩⟩
  | some p =>
    by_cases hc : (configureMicrophone p ds v).success = true
    · exact ⟨⟨(configureMicrophone p ds v).warnings,
        by simp [microphoneStage, hc]⟩,
        ⟨(configureMicrophone p ds v).appliedFallbacks,
        by simp [microphoneStage, hc]⟩⟩
    · exact ⟨⟨["Microphone configuration failed: " ++
          (configureMicrophone p ds v).error],
        by simp [microphoneStage, hc]⟩,
        ⟨[], by simp [microphoneStage, hc]⟩⟩

/-- A failed system-audio configuration leaves its failure message among the
stage's warnings. -/
theorem systemAudioStage_fail_warning (p : String) (ds : List AudioDevice)
    (v : String → DeviceValidation) (r : ValidationResult)
    (hf : (configureSystemAudio p ds v).success = false) :
    ("System audio configuration failed: No working system audio devices found")
      ∈ (systemAudioStage (some p) ds v r).warnings := by
  have herr := (configureAudioDevice_fail .output "Preferred system audio device"
    "System audio fallback" "No working system audio devices found" p ds v hf).1
  simp only [systemAudioStage, hf, Bool.false_eq_true, if_false]
  rw [show (configureSystemAudio p ds v).error =
    (configureAudioDevice .output "Preferred system audio device"
      "System audio fallback" "No working system audio devices found"
      p ds v).error from rfl, herr]
  simp

theorem microphoneStage_fail_warning (p : String) (ds : List AudioDevice)
    (v : String → DeviceValidation) (r : ValidationResult)
    (hf : (configureMicrophone p ds v).success = false) :
    ("Microphone configuration failed: No working microphone devices found")
      ∈ (microphoneStage (some p) ds v r).warnings := by
  have herr := (configureAudioDevice_fail .input "Preferred microphone"
    "Microphone fallback" "No working microphone devices found" p ds v hf).1
  simp only [microphoneStage, hf, Bool.false_eq_true, if_false]
  rw [show (configureMicrophone p ds v).error =
    (configureAudioDevice .input "Preferred microphone"
      "Microphone fallback" "No working microphone devices found"
      p ds v).error from rfl, herr]
  simp

/-- A successful system-audio configuration's applied fallbacks all appear in
the stage's applied fallbacks. -/
theorem systemAudioStage_applied_mem (p : String) (ds : List AudioDevice)
    (v : String → DeviceValidation) (r : ValidationResult) (m : String)
    (hm : m ∈ (configureSystemAudio p ds v).appliedFallbacks) :
    m ∈ (systemAudioStage (some p) ds v r).appliedFallbacks := by
  by_cases hc : (configureSystemAudio p ds v).success = true
  · simp only [systemAudioStage, hc, if_true]
    exact List.mem_append_right _ hm
  · have := (configureAudioDevice_fail .output "Preferred system audio device"
      "System audio fallback" "No working system audio devices found" p ds v
      (by simpa using hc)).2
    rw [show (configureSystemAudio p ds v).appliedFallbacks =
      (configureAudioDevice .output "Preferred system audio device"
        "System audio fallback" "No working system audio devices found"
        p ds v).appliedFallbacks from rfl, this] at hm
    simp at hm

theorem microphoneStage_applied_mem (p : String) (ds : List AudioDevice)
    (v : String → DeviceValidation) (r : ValidationResult) (m : String)
    (hm : m ∈ (configureMicrophone p ds v).appliedFallbacks) :
    m ∈ (microphoneStage (some p) ds v r).appliedFallbacks := by
  by_cases hc : (configureMicrophone p ds v).success = true
  · simp only [microphoneStage, hc, if_true]
    exact List.mem_append_right _ hm
  · have := (configureAudioDevice_fail .input "Preferred microphone"
      "Microphone fallback" "No working microphone devices found" p ds v
      (by simpa using hc)).2
    rw [show (configureMicrophone p ds v).appliedFallbacks =
      (configureAudioDevice .input "Preferred microphone"
        "Microphone fallback" "No working microphone devices found"
        p ds v).appliedFallbacks from rfl, this] at hm
    simp at hm

/-- C7 -- Confirmed.  `validateAndConfigureDevices` returns `isValid = false`
(with an error recorded) exactly when no encoder test result is available;
if any is available the result is valid, and a system-audio or microphone
configuration failure for a requested device is recorded only as a warning;
every substitution of a fallback for the preferred video encoder or audio
device is recorded in `appliedFallbacks`. -/
theorem validateAndConfigureDevices_spec
    (pv : String) (ps pm : Option String) (rs : List EncoderTestResult)
    (ds : List AudioDevice) (v : String → DeviceValidation) :
    ((validateAndConfigureDevices pv ps pm rs ds v).isValid = false ↔
      ∀ t ∈ rs, t.isAvailable = false) ∧
    ((validateAndConfigureDevices pv ps pm rs ds v).isValid = false →
      (validateAndConfigureDevices pv ps pm rs ds v).errors ≠ []) ∧
    ((validateAndConfigureDevices pv ps pm rs ds v).isValid = true →
      (validateAndConfigureDevices pv ps pm rs ds v).errors = []) ∧
    ((∃ t ∈ rs, t.isAvailable = true) →
      (validateAndConfigureDevices pv ps pm rs ds v).isValid = true) ∧
    (∀ p, ps = some p → (configureSystemAudio p ds v).success = false →
      ("System audio configuration failed: No working system audio devices found")
        ∈ (validateAndConfigureDevices pv ps pm rs ds v).warnings) ∧
    (∀ p, pm = some p → (configureMicrophone p ds v).success = false →
      ("Microphone configuration failed: No working microphone devices found")
        ∈ (validateAndConfigureDevices pv ps pm rs ds v).warnings) ∧
    ((validateAndConfigureDevices pv ps pm rs ds v).isValid = true →
      (validateAndConfigureDevices pv ps pm rs ds
        v).finalConfiguration.videoPrimary.name ≠ pv →
      ("Video encoder fallback: " ++ pv ++ " → " ++
        (validateAndConfigureDevices pv ps pm rs ds
          v).finalConfiguration.videoPrimary.name)
        ∈ (validateAndConfigureDevices pv ps pm rs ds v).appliedFallbacks) ∧
    (∀ p d, ps = some p → (configureSystemAudio p ds v).primary = some d →
      d.name ≠ p → d.id ≠ p →
      ("System audio fallback: " ++ p ++ " → " ++ d.name)
        ∈ (validateAndConfigureDevices pv ps pm rs ds v).appliedFallbacks) ∧
    (∀ p d, pm = some p → (configureMicrophone p ds v).primary = some d →
      d.name ≠ p → d.id ≠ p →
      ("Microphone fallback: " ++ p ++ " → " ++ d.name)
        ∈ (validateAndConfigureDevices pv ps pm rs ds v).appliedFallbacks) := by
  have hvalid : (validateAndConfigureDevices pv ps pm rs ds v).isValid =
      (configureVideoEncoder pv rs).success := by
    unfold validateAndConfigureDevices
    rw [(microphoneStage_preserves pm ds v _).1,
      (systemAudioStage_preserves ps ds v _).1, videoStage_isValid]
  have herrs : (validateAndConfigureDevices pv ps pm rs ds v).errors =
      (videoStage pv rs).errors := by
    unfold validateAndConfigureDevices
    rw [(microphoneStage_preserves pm ds v _).2.1,
      (systemAudioStage_preserves ps ds v _).2.1]
  have hprim : (validateAndConfigureDevices pv ps pm rs ds
      v).finalConfiguration.videoPrimary =
      (videoStage pv rs).finalConfiguration.videoPrimary := by
    unfold validateAndConfigureDevices
    rw [(microphoneStage_preserves pm ds v _).2.2,
      (systemAudioStage_preserves ps ds v _).2.2]
  refine ⟨?_, ?_, ?_, ?_, ?_, ?_, ?_, ?_, ?_⟩
  · rw [hvalid]
    cases hs : (configureVideoEncoder pv rs).success with
    | false =>
      have hnex : ¬∃ t ∈ rs, t.isAvailable = true := fun hex => by
        have := (configureVideoEncoder_success_iff pv rs).mpr hex
        rw [hs] at this
        cases this
      refine iff_of_true rfl ?_
      intro t ht
      cases hav : t.isAvailable with
      | false => rfl
      | true => exact absurd ⟨t, ht, hav⟩ hnex
    | true =>
      obtain ⟨t, ht, hav⟩ := (configureVideoEncoder_success_iff pv rs).mp hs
      refine iff_of_false (by simp) ?_
      intro hall
      rw [hall t ht] at hav
      cases hav
  · intro h
    have hs : (configureVideoEncoder pv rs).success = false := by
      rw [hvalid] at h; exact h
    rw [herrs, videoStage_errors_fail pv rs hs]
    simp
  · intro h
    have hs : (configureVideoEncoder pv rs).success = true := by
      rw [hvalid] at h; exact h
    rw [herrs, videoStage_errors_success pv rs hs]
  · intro h
    rw [hvalid]
    exact (configureVideoEncoder_success_iff pv rs).mpr h
  · intro p hp hf
    subst hp
    unfold validateAndConfigureDevices
    obtain ⟨extra, hext⟩ := (microphoneStage_ext pm ds v _).1
    rw [hext]
    exact List.mem_append_left _ (systemAudioStage_fail_warning p ds v _ hf)
  · intro p hp hf
    subst hp
    unfold validateAndConfigureDevices
    exact microphoneStage_fail_warning p ds v _ hf
  · intro hval hne
    have hs : (configureVideoEncoder pv rs).success = true := by
      rw [hvalid] at hval; exact hval
    have hp : (validateAndConfigureDevices pv ps pm rs ds
        v).finalConfiguration.videoPrimary =
        (configureVideoEncoder pv rs).primary := by
      rw [hprim, videoStage_primary_success pv rs hs]
    rw [hp] at hne ⊢
    have hmem := configureVideoEncoder_fallback_recorded pv rs hs hne
    unfold validateAndConfigureDevices
    obtain ⟨e2, he2⟩ := (microphoneStage_ext pm ds v _).2
    rw [he2]
    apply List.mem_append_left
    obtain ⟨e1, he1⟩ := (systemAudioStage_ext ps ds v _).2
    rw [he1]
    apply List.mem_append_left
    rw [videoStage_applied_success pv rs hs]
    exact hmem
  · intro p d hp hpd hn hi
    subst hp
    have hmem := configureAudioDevice_fallback_recorded .output
      "Preferred system audio device" "System audio fallback"
      "No working system audio devices found" p ds v d hpd hn hi
    unfold validateAndConfigureDevices
    obtain ⟨e2, he2⟩ := (microphoneStage_ext pm ds v _).2
    rw [he2]
    apply List.mem_append_left
    exact systemAudioStage_applied_mem p ds v _ _ hmem
  · intro p d hp hpd hn hi
    subst hp
    have hmem := configureAudioDevice_fallback_recorded .input
      "Preferred microphone" "Microphone fallback"
      "No working microphone devices found" p ds v d hpd hn hi
    unfold validateAndConfigureDevices
    exact microphoneStage_applied_mem p ds v _ _ hmem

/-- C7 -- Witness: preferred encoder `h264_amf` absent from the test
results, one available `libx264` result, a requested system-audio device
with no devices present: the result is valid, the audio failure is a
warning, and the video substitution is recorded. -/
theorem validateAndConfigureDevices_spec_witness :
    (validateAndConfigureDevices "h264_amf" (some "SpeakerX") none
      [{ encoder := createDummyEncoder "libx264", isAvailable := true,
         testDuration := 100, performanceScore := some 80 }] []
      (fun _ => { isValid := true })).isValid = true ∧
    ("System audio configuration failed: No working system audio devices found")
      ∈ (validateAndConfigureDevices "h264_amf" (some "SpeakerX") none
        [{ encoder := createDummyEncoder "libx264", isAvailable := true,
           testDuration := 100, performanceScore := some 80 }] []
        (fun _ => { isValid := true })).warnings ∧
    ("Video encoder fallback: " ++ "h264_amf" ++ " → " ++
      (validateAndConfigureDevices "h264_amf" (some "SpeakerX") none
        [{ encoder := createDummyEncoder "libx264", isAvailable := true,
           testDuration := 100, performanceScore := some 80 }] []
        (fun _ => { isValid := true })).finalConfiguration.videoPrimary.name)
      ∈ (validateAndConfigureDevices "h264_amf" (some "SpeakerX") none
        [{ encoder := createDummyEncoder "libx264", isAvailable := true,
           testDuration := 100, performanceScore := some 80 }] []
        (fun _ => { isValid := true })).appliedFallbacks := by
  obtain ⟨hA, hB, hC, hD, hE, hF, hG, hH, hI⟩ :=
    validateAndConfigureDevices_spec "h264_amf" (some "SpeakerX") none
      [{ encoder := createDummyEncoder "libx264", isAvailable := true,
         testDuration := 100, performanceScore := some 80 }] []
      (fun _ => { isValid := true })
  exact ⟨hD (by decide), hE "SpeakerX" rfl (by decide),
    hG (hD (by decide)) (by decide)⟩

/-- `addRecordingSession` keeps a sublist of the old sessions and appends
the new one at the end. -/
theorem addRecordingSession_eq (l : List RecordingSession)
    (s : RecordingSession) :
    ∃ l', List.Sublist l' l ∧ addRecordingSession l s = l' ++ [s] := by
  have hd : addRecordingSession l s =
      if (l ++ [s]).length > 100 then
        (l ++ [s]).drop ((l ++ [s]).length - 100)
      else l ++ [s] := rfl
  by_cases h : (l ++ [s]).length > 100
  · refine ⟨l.drop ((l ++ [s]).length - 100), List.drop_sublist _ _, ?_⟩
    rw [hd, if_pos h, List.drop_append_of_le_length (by simp)]
  · exact ⟨l, List.Sublist.refl l, by rw [hd, if_neg h]⟩

/-- Updating a session does not change the stored id sequence when the
update function preserves ids. -/
theorem updateRecordingSession_map_sid (l : List RecordingSession)
    (sid : Nat) (f : RecordingSession → RecordingSession)
    (hf : ∀ x, (f x).sid = x.sid) :
    (updateRecordingSession l sid f).map (·.sid) = l.map (·.sid) := by
  induction l with
  | nil => rfl
  | cons a rest ih =>
    by_cases h : a.sid = sid
    · simp [updateRecordingSession, h, hf]
    · simp [updateRecordingSession, h, ih]

/-- Membership in an updated session list. -/
theorem mem_updateRecordingSession (l : List RecordingSession) (sid : Nat)
    (f : RecordingSession → RecordingSession) :
    ∀ u ∈ updateRecordingSession l sid f, u ∈ l ∨ ∃ y ∈ l, u = f y := by
  induction l with
  | nil => intro u hu; simp [updateRecordingSession] at hu
  | cons a rest ih =>
    intro u hu
    by_cases h : a.sid = sid
    · simp only [updateRecordingSession, if_pos h] at hu
      rcases List.mem_cons.mp hu with hua | hur
      · exact Or.inr ⟨a, List.mem_cons_self a rest, hua⟩
      · exact Or.inl (List.mem_cons_of_mem a hur)
    · simp only [updateRecordingSession, if_neg h] at hu
      rcases List.mem_cons.mp hu with hua | hur
      · exact Or.inl (hua ▸ List.mem_cons_self a rest)
      · rcases ih u hur with hl | ⟨y, hy, hyu⟩
        · exact Or.inl (List.mem_cons_of_mem a hl)
        · exact Or.inr ⟨y, List.mem_cons_of_mem a hy, hyu⟩

/-- With distinct stored ids, any member of an updated list that carries the
targeted id is the image of the unique stored session with that id. -/
theorem mem_updateRecordingSession_sid (l : List RecordingSession)
    (sid : Nat) (f : RecordingSession → RecordingSession)
    (hnd : (l.map (·.sid)).Nodup) :
    ∀ u ∈ updateRecordingSession l sid f, u.sid = sid →
      ∃ y ∈ l, y.sid = sid ∧ u = f y := by
  induction l with
  | nil => intro u hu; simp [updateRecordingSession] at hu
  | cons a rest ih =>
    intro u hu hus
    have hnd1 : a.sid ∉ rest.map (·.sid) := by
      rw [List.map_cons] at hnd
      exact (List.nodup_cons.mp hnd).1
    have hnd2 : (rest.map (·.sid)).Nodup := by
      rw [List.map_cons] at hnd
      exact (List.nodup_cons.mp hnd).2
    by_cases h : a.sid = sid
    · simp only [updateRecordingSession, if_pos h] at hu
      rcases List.mem_cons.mp hu with hua | hur
      · exact ⟨a, List.mem_cons_self a rest, h, hua⟩
      · have hmem : u.sid ∈ rest.map (·.sid) := List.mem_map_of_mem _ hur
        rw [hus, ← h] at hmem
        exact absurd hmem hnd1
    · simp only [updateRecordingSession, if_neg h] at hu
      rcases List.mem_cons.mp hu with hua | hur
      · exact absurd (hua ▸ hus) h
      · obtain ⟨y, hy, hysid, hyu⟩ := ih hnd2 u hur hus
        exact ⟨y, List.mem_cons_of_mem a hy, hysid, hyu⟩

/-- `AppStateManager.stopRecording` always leaves the recording flag cleared
and the current-session reference empty (in a state whose flag agrees with
its session reference), and either leaves the store untouched (when it was
not recording) or finalizes the current session in the store. -/
theorem asmStopRecording_result (a : ASMState)
    (hlink : a.isRecording = a.recordingSession.isSome) :
    (asmStopRecording a).2.isRecording = false ∧
    (asmStopRecording a).2.recordingSession = none ∧
    ((asmStopRecording a).2.sessions = a.sessions ∨
      ∃ cs, a.recordingSession = some cs ∧
        (asmStopRecording a).2.sessions =
          updateRecordingSession a.sessions cs.sid (fun s =>
            { s with
              endTime := some a.clock
              status := .stopped
              durationSeconds := some (a.clock - cs.startTime) })) := by
  cases hcs : a.recordingSession with
  | none =>
    have heq : asmStopRecording a = (false, a) := by
      unfold asmStopRecording; rw [hcs]
    rw [heq]
    refine ⟨?_, hcs, Or.inl rfl⟩
    rw [hlink, hcs]
    rfl
  | some cs =>
    have hrec : a.isRecording = true := by rw [hlink, hcs]; rfl
    have heq : asmStopRecording a =
        (true,
          { isRecording := false
            recordingSession := none
            sessions := updateRecordingSession a.sessions cs.sid (fun s =>
              { s with
                endTime := some a.clock
                status := .stopped
                durationSeconds := some (a.clock - cs.startTime) })
            clock := a.clock + 1 }) := by
      unfold asmStopRecording; rw [hcs, hrec]; rfl
    rw [heq]
    exact ⟨rfl, rfl, Or.inr ⟨cs, rfl, rfl⟩⟩

/-- C1 -- Amended.  When a recording is in progress (engine session set,
state-machine flag agreeing with its session reference, distinct stored
ids), `RecordingEngine.stopRecording` returns the engine to Idle whenever
the underlying process-stop call *resolves* — whether it reports success or
soft failure: it returns true, clears the engine's session reference,
clears the state machine's recording flag and session reference, and
finalizes every stored session carrying the engine session's id as stopped
with an end timestamp.  (When the process-stop call *raises*, the catch
block returns false and no cleanup happens — see the counterexample.) -/
theorem engineStopRecording_resolved_cleanup
    (st : EngineState) (session : RecordingSession) (success : Bool)
    (hsession : st.engineSession = some session)
    (hlink : st.asm.isRecording = st.asm.recordingSession.isSome)
    (hnd : (st.asm.sessions.map (·.sid)).Nodup) :
    (engineStopRecording st (.ok success)).1 = true ∧
    (engineStopRecording st (.ok success)).2.engineSession = none ∧
    (engineStopRecording st (.ok success)).2.asm.isRecording = false ∧
    (engineStopRecording st (.ok success)).2.asm.recordingSession = none ∧
    (∀ u ∈ (engineStopRecording st (.ok success)).2.asm.sessions,
      u.sid = session.sid → u.status = .stopped ∧ u.endTime ≠ none) := by
  have heq : engineStopRecording st (.ok success) =
      (true,
        { engineSession := none
          asm := (asmStopRecording
            { st.asm with
              sessions := updateRecordingSession st.asm.sessions session.sid
                (fun s =>
                  { s with
                    endTime := some st.asm.clock
                    status := .stopped
                    durationSeconds := some (st.asm.clock - session.startTime)
                    fileSizeBytes := some 0 })
              clock := st.asm.clock + 1 }).2 }) := by
    unfold engineStopRecording; rw [hsession]
  rw [heq]
  obtain ⟨h1, h2, h3⟩ := asmStopRecording_result
    { st.asm with
      sessions := updateRecordingSession st.asm.sessions session.sid
        (fun s =>
          { s with
            endTime := some st.asm.clock
            status := .stopped
            durationSeconds := some (st.asm.clock - session.startTime)
            fileSizeBytes := some 0 })
      clock := st.asm.clock + 1 } hlink
  refine ⟨rfl, rfl, h1, h2, ?_⟩
  intro u hu hus
  rcases h3 with hsame | ⟨cs, hcs, hupd⟩
  · rw [hsame] at hu
    obtain ⟨y, hy, hysid, hyu⟩ := mem_updateRecordingSession_sid
      st.asm.sessions session.sid _ hnd u hu hus
    rw [hyu]
    exact ⟨rfl, by simp⟩
  · rw [hupd] at hu
    rcases mem_updateRecordingSession _ _ _ u hu with hin | ⟨y, hy, hyu⟩
    · obtain ⟨y', hy', hysid', hyu'⟩ := mem_updateRecordingSession_sid
        st.asm.sessions session.sid _ hnd u hin hus
      rw [hyu']
      exact ⟨rfl, by simp⟩
    · rw [hyu]
      exact ⟨rfl, by simp⟩

/-- C1 -- Counterexample to the claim as stated: from the recording state
reached by one successful engine start, a stop whose underlying
process-stop call raises an error returns false and leaves the entire state
unchanged — still recording, session reference still set — rather than
returning to Idle. -/
theorem engineStopRecording_raised_no_cleanup :
    (engineStartRecording engineInit true true "out.mkv"
      "medium").2.engineSession.isSome = true ∧
    (engineStartRecording engineInit true true "out.mkv"
      "medium").2.asm.isRecording = true ∧
    (engineStopRecording (engineStartRecording engineInit true true "out.mkv"
      "medium").2 .raised).1 = false ∧
    (engineStopRecording (engineStartRecording engineInit true true "out.mkv"
      "medium").2 .raised).2 =
      (engineStartRecording engineInit true true "out.mkv" "medium").2 :=
  ⟨rfl, rfl, rfl, rfl⟩

/-- C1 -- Witness: the amended theorem applied to the state reached by one
successful engine start, with the process-stop call reporting soft failure
(`ok false`): cleanup proceeds to Idle regardless. -/
theorem engineStopRecording_resolved_cleanup_witness :
    (engineStopRecording (engineStartRecording engineInit true true "out.mkv"
      "medium").2 (.ok false)).1 = true ∧
    (engineStopRecording (engineStartRecording engineInit true true "out.mkv"
      "medium").2 (.ok false)).2.engineSession = none ∧
    (engineStopRecording (engineStartRecording engineInit true true "out.mkv"
      "medium").2 (.ok false)).2.asm.isRecording = false ∧
    (engineStopRecording (engineStartRecording engineInit true true "out.mkv"
      "medium").2 (.ok false)).2.asm.recordingSession = none := by
  obtain ⟨h1, h2, h3, h4, h5⟩ := engineStopRecording_resolved_cleanup
    (engineStartRecording engineInit true true "out.mkv" "medium").2
    { sid := 0, startTime := 0, endTime := none, profile := "medium",
      outputPath := "out.mkv", status := .recording, fileSizeBytes := none,
      durationSeconds := none, errorMessage := none }
    false rfl rfl (by decide)
  exact ⟨h1, h2, h3, h4⟩

/-- A start request while already recording is rejected and changes
nothing. -/
theorem asmStartRecording_already (st : ASMState) (p pr : String)
    (h : st.isRecording = true) :
    asmStartRecording st p pr = (false, st) := by
  unfold asmStartRecording; rw [h]; rfl

/-- A start request while idle succeeds, persisting one new session. -/
theorem asmStartRecording_fresh (st : ASMState) (p pr : String)
    (h : st.isRecording = false) :
    asmStartRecording st p pr =
      (true,
        { isRecording := true
          recordingSession := some
            { sid := st.clock, startTime := st.clock, endTime := none,
              profile := pr, outputPath := p, status := .recording,
              fileSizeBytes := none, durationSeconds := none,
              errorMessage := none }
          sessions := addRecordingSession st.sessions
            { sid := st.clock, startTime := st.clock, endTime := none,
              profile := pr, outputPath := p, status := .recording,
              fileSizeBytes := none, durationSeconds := none,
              errorMessage := none }
          clock := st.clock + 1 }) := by
  unfold asmStartRecording; rw [h]; rfl

/-- Below the 100-session cap, adding a session is a plain append. -/
theorem addRecordingSession_small (l : List RecordingSession)
    (s : RecordingSession) (h : l.length < 100) :
    addRecordingSession l s = l ++ [s] := by
  have hd : addRecordingSession l s =
      if (l ++ [s]).length > 100 then
        (l ++ [s]).drop ((l ++ [s]).length - 100)
      else l ++ [s] := rfl
  rw [hd, if_neg (by simp; omega)]

/-- C5 -- Amended.  At the `AppStateManager` level, starting twice in a row
from an idle state whose history is below the 100-entry cap makes the
second call return false, and across the two calls the persisted session
count increases by exactly one.  (At the `RecordingEngine` level each
successful start persists two sessions — the engine's own and the state
manager's — so there the count increases by two; see the counterexample.) -/
theorem asmStartRecording_twice (st : ASMState) (p1 pr1 p2 pr2 : String)
    (hrec : st.isRecording = false) (hlen : st.sessions.length < 100) :
    (asmStartRecording st p1 pr1).1 = true ∧
    (asmStartRecording (asmStartRecording st p1 pr1).2 p2 pr2).1 = false ∧
    (asmStartRecording (asmStartRecording st p1 pr1).2 p2
      pr2).2.sessions.length = st.sessions.length + 1 := by
  rw [asmStartRecording_fresh st p1 pr1 hrec]
  rw [asmStartRecording_already _ p2 pr2 rfl]
  refine ⟨rfl, rfl, ?_⟩
  show (addRecordingSession st.sessions _).length = st.sessions.length + 1
  rw [addRecordingSession_small _ _ hlen]
  simp

/-- C5 -- Witness: two starts from the initial state. -/
theorem asmStartRecording_twice_witness :
    (asmStartRecording asmInit "a.mkv" "medium").1 = true ∧
    (asmStartRecording (asmStartRecording asmInit "a.mkv" "medium").2 "b.mkv"
      "high").1 = false ∧
    (asmStartRecording (asmStartRecording asmInit "a.mkv" "medium").2 "b.mkv"
      "high").2.sessions.length = asmInit.sessions.length + 1 :=
  asmStartRecording_twice asmInit "a.mkv" "medium" "b.mkv" "high" rfl
    (by decide)

/-- C5 -- Counterexample to the claim as stated at the engine level: two
successive `RecordingEngine.startRecording` calls (safety check passing,
process starting) — the second call returns false, but the persisted
session count rises from 0 to 2, because the engine persists its own
session and `AppStateManager.startRecording` persists a second one. -/
theorem engine_double_session_count :
    (engineStartRecording engineInit true true "out.mkv" "medium").1 = true ∧
    (engineStartRecording (engineStartRecording engineInit true true
      "out.mkv" "medium").2 true true "out.mkv" "medium").1 = false ∧
    (engineStartRecording (engineStartRecording engineInit true true
      "out.mkv" "medium").2 true true "out.mkv"
      "medium").2.asm.sessions.length = 2 := by
  decide

/-- Inductive invariant of the state machine's session bookkeeping:
statuses agree with end timestamps, stored ids are fresh and distinct, the
recording flag agrees with the session reference, and the store's
'recording'-status entries are exactly the current session (or none). -/
structure ASMInv (st : ASMState) : Prop where
  consistent : ∀ s ∈ st.sessions, s.status = .recording ↔ s.endTime = none
  fresh : ∀ s ∈ st.sessions, s.sid < st.clock
  nodup : (st.sessions.map (·.sid)).Nodup
  link : st.isRecording = st.recordingSession.isSome
  current : ∀ cs, st.recordingSession = some cs →
    st.sessions.filter (fun s => s.status == SessionStatus.recording) = [cs]
  idle : st.recordingSession = none →
    st.sessions.filter (fun s => s.status == SessionStatus.recording) = []

theorem asmInv_init : ASMInv asmInit := by
  constructor <;> simp [asmInit]

/-- Finalizing the unique 'recording'-status entry empties the
'recording'-status filter of the store. -/
theorem recording_filter_update_clear (l : List RecordingSession)
    (cs : RecordingSession) (f : RecordingSession → RecordingSession)
    (hnd : (l.map (·.sid)).Nodup)
    (hone : l.filter (fun s => s.status == SessionStatus.recording) = [cs])
    (hf : ∀ x, ((f x).status == SessionStatus.recording) = false) :
    (updateRecordingSession l cs.sid f).filter
      (fun s => s.status == SessionStatus.recording) = [] := by
  induction l with
  | nil => simp at hone
  | cons a rest ih =>
    have hnd1 : a.sid ∉ rest.map (·.sid) := by
      rw [List.map_cons] at hnd
      exact (List.nodup_cons.mp hnd).1
    have hnd2 : (rest.map (·.sid)).Nodup := by
      rw [List.map_cons] at hnd
      exact (List.nodup_cons.mp hnd).2
    by_cases hrec : (a.status == SessionStatus.recording) = true
    · rw [List.filter_cons, if_pos hrec] at hone
      obtain ⟨ha, hrest⟩ := List.cons_eq_cons.mp hone
      have hsid : a.sid = cs.sid := by rw [ha]
      rw [show updateRecordingSession (a :: rest) cs.sid f = f a :: rest from
        by rw [updateRecordingSession, if_pos hsid]]
      rw [List.filter_cons, if_neg (by simp [hf])]
      exact hrest
    · rw [List.filter_cons, if_neg (by simpa using hrec)] at hone
      by_cases hsid : a.sid = cs.sid
      · have hcs_mem : cs ∈ rest := by
          have hmemf : cs ∈ List.filter
              (fun s => s.status == SessionStatus.recording) rest := by
            rw [hone]
            exact List.mem_singleton.mpr rfl
          exact List.mem_of_mem_filter hmemf
        have hmem : cs.sid ∈ rest.map (·.sid) := List.mem_map_of_mem _ hcs_mem
        rw [← hsid] at hmem
        exact absurd hmem hnd1
      · rw [show updateRecordingSession (a :: rest) cs.sid f =
            a :: updateRecordingSession rest cs.sid f from
          by rw [updateRecordingSession, if_neg hsid]]
        rw [List.filter_cons, if_neg (by simpa using hrec)]
        exact ih hnd2 hone

/-- `startRecording` preserves the invariant. -/
theorem asmInv_start (st : ASMState) (hinv : ASMInv st) (p pr : String) :
    ASMInv (asmStartRecording st p pr).2 := by
  cases hb : st.isRecording with
  | true =>
    rw [asmStartRecording_already st p pr hb]
    exact hinv
  | false =>
    rw [asmStartRecording_fresh st p pr hb]
    have hnone : st.recordingSession = none := by
      have hl := hinv.link
      rw [hb] at hl
      cases hcs : st.recordingSession with
      | none => rfl
      | some cs => rw [hcs] at hl; simp at hl
    have hidle := hinv.idle hnone
    obtain ⟨l', hsub, hadd⟩ := addRecordingSession_eq st.sessions
      { sid := st.clock, startTime := st.clock, endTime := none,
        profile := pr, outputPath := p, status := .recording,
        fileSizeBytes := none, durationSeconds := none, errorMessage := none }
    refine ⟨?_, ?_, ?_, ?_, ?_, ?_⟩
    · intro s hs
      dsimp only at hs
      rw [hadd] at hs
      rcases List.mem_append.mp hs with hl | hr
      · exact hinv.consistent s (hsub.subset hl)
      · rw [List.mem_singleton] at hr
        subst hr
        simp
    · intro s hs
      dsimp only at hs ⊢
      rw [hadd] at hs
      rcases List.mem_append.mp hs with hl | hr
      · exact Nat.lt_succ_of_lt (hinv.fresh s (hsub.subset hl))
      · rw [List.mem_singleton] at hr
        subst hr
        exact Nat.lt_succ_self _
    · dsimp only
      rw [hadd, List.map_append]
      have h1 : (l'.map (·.sid)).Nodup := hinv.nodup.sublist (hsub.map _)
      have h2 : st.clock ∉ l'.map (·.sid) := by
        intro hmem
        obtain ⟨y, hy, hysid⟩ := List.mem_map.mp hmem
        have hlt := hinv.fresh y (hsub.subset hy)
        omega
      simp [List.nodup_append, h1, h2]
    · rfl
    · intro cs hcs
      dsimp only at hcs ⊢
      have hcseq : cs =
          { sid := st.clock, startTime := st.clock, endTime := none,
            profile := pr, outputPath := p, status := .recording,
            fileSizeBytes := none, durationSeconds := none,
            errorMessage := none } := by
        have hx := hcs.symm
        simpa using hx
      subst hcseq
      rw [hadd, List.filter_append]
      have hl' : List.filter (fun s => s.status == SessionStatus.recording)
          l' = [] := by
        have hsubf := hsub.filter (fun s => s.status == SessionStatus.recording)
        rw [hidle] at hsubf
        exact List.sublist_nil.mp hsubf
      rw [hl']
      rfl
    · intro hcs
      dsimp only at hcs
      simp at hcs

/-- `stopRecording` preserves the invariant. -/
theorem asmInv_stop (st : ASMState) (hinv : ASMInv st) :
    ASMInv (asmStopRecording st).2 := by
  cases hcs : st.recordingSession with
  | none =>
    have heq : asmStopRecording st = (false, st) := by
      unfold asmStopRecording; rw [hcs]
    rw [heq]
    exact hinv
  | some cs =>
    have hrec : st.isRecording = true := by rw [hinv.link, hcs]; rfl
    have heq : asmStopRecording st =
        (true,
          { isRecording := false
            recordingSession := none
            sessions := updateRecordingSession st.sessions cs.sid (fun s =>
              { s with
                endTime := some st.clock
                status := .stopped
                durationSeconds := some (st.clock - cs.startTime) })
            clock := st.clock + 1 }) := by
      unfold asmStopRecording; rw [hcs, hrec]; rfl
    rw [heq]
    have hcur := hinv.current cs hcs
    constructor
    · intro s hs
      rcases mem_updateRecordingSession _ _ _ s hs with hold | ⟨y, hy, hyu⟩
      · exact hinv.consistent s hold
      · rw [hyu]
        simp
    · intro s hs
      rcases mem_updateRecordingSession _ _ _ s hs with hold | ⟨y, hy, hyu⟩
      · exact Nat.lt_succ_of_lt (hinv.fresh s hold)
      · rw [hyu]
        exact Nat.lt_succ_of_lt (hinv.fresh y hy)
    · show ((updateRecordingSession st.sessions cs.sid (fun s =>
        { s with
          endTime := some st.clock
          status := .stopped
          durationSeconds := some (st.clock - cs.startTime) })).map
        (·.sid)).Nodup
      rw [updateRecordingSession_map_sid st.sessions cs.sid
        (fun s =>
          { s with
            endTime := some st.clock
            status := .stopped
            durationSeconds := some (st.clock - cs.startTime) })
        (fun x => rfl)]
      exact hinv.nodup
    · rfl
    · intro cs' hcs'
      simp at hcs'
    · intro _
      exact recording_filter_update_clear st.sessions cs _ hinv.nodup hcur
        (fun x => rfl)

/-- `recordingError` preserves the invariant. -/
theorem asmInv_err (st : ASMState) (hinv : ASMInv st) (msg : String) :
    ASMInv (asmRecordingError st msg) := by
  cases hcs : st.recordingSession with
  | none =>
    have heq : asmRecordingError st msg =
        { st with isRecording := false, clock := st.clock + 1 } := by
      unfold asmRecordingError; rw [hcs]
    rw [heq]
    constructor
    · exact hinv.consistent
    · intro s hs
      exact Nat.lt_succ_of_lt (hinv.fresh s hs)
    · exact hinv.nodup
    · show false = st.recordingSession.isSome
      rw [hcs]
      rfl
    · intro cs' hcs'
      dsimp only at hcs'
      rw [hcs] at hcs'
      cases hcs'
    · intro _
      exact hinv.idle hcs
  | some cs =>
    have heq : asmRecordingError st msg =
        { isRecording := false
          recordingSession := none
          sessions := updateRecordingSession st.sessions cs.sid (fun s =>
            { s with
              status := .error
              errorMessage := some msg
              endTime := some st.clock })
          clock := st.clock + 1 } := by
      unfold asmRecordingError; rw [hcs]
    rw [heq]
    have hcur := hinv.current cs hcs
    constructor
    · intro s hs
      rcases mem_updateRecordingSession _ _ _ s hs with hold | ⟨y, hy, hyu⟩
      · exact hinv.consistent s hold
      · rw [hyu]
        simp
    · intro s hs
      rcases mem_updateRecordingSession _ _ _ s hs with hold | ⟨y, hy, hyu⟩
      · exact Nat.lt_succ_of_lt (hinv.fresh s hold)
      · rw [hyu]
        exact Nat.lt_succ_of_lt (hinv.fresh y hy)
    · show ((updateRecordingSession st.sessions cs.sid (fun s =>
        { s with
          status := .error
          errorMessage := some msg
          endTime := some st.clock })).map (·.sid)).Nodup
      rw [updateRecordingSession_map_sid st.sessions cs.sid
        (fun s =>
          { s with
            status := .error
            errorMessage := some msg
            endTime := some st.clock })
        (fun x => rfl)]
      exact hinv.nodup
    · rfl
    · intro cs' hcs'
      simp at hcs'
    · intro _
      exact recording_filter_update_clear st.sessions cs _ hinv.nodup hcur
        (fun x => rfl)

theorem asmInv_step (st : ASMState) (hinv : ASMInv st) (op : ASMOp) :
    ASMInv (asmStep st op) := by
  cases op with
  | start p pr => exact asmInv_start st hinv p pr
  | stop => exact asmInv_stop st hinv
  | err m => exact asmInv_err st hinv m

theorem asmInv_run (ops : List ASMOp) : ASMInv (asmRun ops) := by
  suffices h : ∀ st, ASMInv st → ASMInv (ops.foldl asmStep st) from
    h asmInit asmInv_init
  induction ops with
  | nil => intro st h; exact h
  | cons op rest ih => intro st h; exact ih _ (asmInv_step st h op)

/-- C2 -- Amended.  At the `AppStateManager` level, in every state reachable
by any sequence of `startRecording`, `stopRecording` and `recordingError`
calls, the persisted store contains at most one session with status
'recording' (exactly one while a recording is in progress), and every
stored session has status 'recording' iff its end timestamp is unset.  (At
the composed `RecordingEngine` level this fails: each successful engine
start persists *two* 'recording'-status sessions — see the
counterexample.) -/
theorem asm_session_store_invariant (ops : List ASMOp) :
    ((asmRun ops).sessions.filter
      (fun s => s.status == SessionStatus.recording)).length ≤ 1 ∧
    ((asmRun ops).isRecording = true →
      ((asmRun ops).sessions.filter
        (fun s => s.status == SessionStatus.recording)).length = 1) ∧
    (∀ s ∈ (asmRun ops).sessions, s.status = .recording ↔ s.endTime = none) := by
  have hinv := asmInv_run ops
  refine ⟨?_, ?_, hinv.consistent⟩
  · cases hcs : (asmRun ops).recordingSession with
    | none => rw [hinv.idle hcs]; simp
    | some cs => rw [hinv.current cs hcs]; simp
  · intro hrec
    have hs : (asmRun ops).recordingSession.isSome = true := by
      rw [← hinv.link]; exact hrec
    cases hcs : (asmRun ops).recordingSession with
    | none => rw [hcs] at hs; simp at hs
    | some cs => rw [hinv.current cs hcs]; rfl

/-- C2 -- Witness: after one successful start the store holds exactly one
'recording'-status session. -/
theorem asm_session_store_invariant_witness :
    ((asmRun [ASMOp.start "a.mkv" "medium"]).sessions.filter
      (fun s => s.status == SessionStatus.recording)).length = 1 :=
  (asm_session_store_invariant [ASMOp.start "a.mkv" "medium"]).2.1 rfl

/-- C2 -- Counterexample to the claim as stated for the composed system:
one successful `RecordingEngine.startRecording` call persists two sessions
with status 'recording' (the engine's own and the state manager's), so the
store does not contain at most one 'recording'-status session. -/
theorem engine_start_two_recording_sessions :
    ((engineStartRecording engineInit true true "out.mkv"
      "medium").2.asm.sessions.filter
      (fun s => s.status == SessionStatus.recording)).length = 2 := by
  decide

end Sideo
